import Mathlib

set_option linter.unusedVariables false

/-!
Shallow embedding of `tospdif.c`: the VLC audio filter that encapsulates
A/52 (AC-3), E-AC-3, DTS and TrueHD/MLP frames into IEC 61937 (S/PDIF)
packets.  Machine bytes are modelled as `Nat` (values < 256); the byte store
of the in-progress output packet is a total function `Nat → Nat`; signed C
`int` arithmetic (the TrueHD padding computation) is modelled with `Int`.
The two bitstream header parsers (`vlc_a52_header_Parse`,
`vlc_dts_header_Parse`) live in the packetizer directory and are external
collaborators of this file; they are modelled as abstract parser functions
carried by the session configuration.
-/

/-- Input audio format of the filter (`fmt_in.audio.i_format`). -/
inductive InFormat
  | a52
  | eac3
  | mlp
  | truehd
  | dts
deriving DecidableEq

/-- Output format: `VLC_CODEC_SPDIFL` (little-endian 16-bit words) or
`VLC_CODEC_SPDIFB` (big-endian 16-bit words). -/
inductive OutFormat
  | spdifl
  | spdifb
deriving DecidableEq

/-- E-AC-3 stream types (`EAC3_STRMTYP_*` of the a52 packetizer header). -/
inductive Strmtyp
  | independent
  | dependent
  | ac3_convert
  | reserved
deriving DecidableEq

/-- Modelled from the spec: result record of `vlc_a52_header_Parse`
(packetizer/a52.h, not part of this file's source): the parser recovers
frame size in bytes, sample count, whether the stream is E-AC-3, and for
E-AC-3 the stream-type, sub-stream id and per-sync-frame block count. -/
structure vlc_a52_header_t where
  b_eac3 : Bool
  i_size : Nat
  i_samples : Nat
  i_blocks_per_sync_frame : Nat
  strmtyp : Strmtyp
  i_substreamid : Nat

/-- Modelled from the spec: result record of `vlc_dts_header_Parse`
(packetizer/dts_header.h, not part of this file's source): the parser
recovers the frame size in bytes and the frame length in samples. -/
structure vlc_dts_header_t where
  i_frame_size : Nat
  i_frame_length : Nat

/-- An input frame (`block_t`): a byte buffer plus metadata.  `p_buffer` is
the underlying byte store and `i_buffer` the number of valid bytes (the C
code shrinks `i_buffer` after parsing without touching the store). -/
structure block_t where
  p_buffer : List Nat
  i_buffer : Nat
  i_nb_samples : Nat
  i_dts : Int
  i_pts : Int
  i_length : Nat

/-- The in-progress output packet (a `block_t` obtained from `block_Alloc`).
Its byte store is modelled as a total function from byte index to byte
value; only indices below `i_buffer` are meaningful. -/
structure out_block_t where
  i_buffer : Nat
  data : Nat → Nat
  i_dts : Int
  i_pts : Int
  i_nb_samples : Nat
  i_length : Nat

/-- `filter_sys_t`: the session state.  `spec_counter` models the union
`spec` of the C struct: `eac3.i_nb_blocks_substream0` and
`truehd.i_frame_count` share a single storage slot. -/
structure filter_sys_t where
  p_out_buf : Option out_block_t
  i_out_offset : Nat
  spec_counter : Nat

/-- Static configuration of one filter session: negotiated input and output
formats, the two external header parsers, and the byte contents of freshly
allocated (uninitialised) buffers. -/
structure Cfg where
  fmt_in : InFormat
  fmt_out : OutFormat
  a52_parse : List Nat → Option vlc_a52_header_t
  dts_parse : List Nat → Option vlc_dts_header_t
  alloc : Nat → Nat

def SPDIF_HEADER_SIZE : Nat := 8

def IEC61937_AC3 : Nat := 0x01
def IEC61937_EAC3 : Nat := 0x15
def IEC61937_TRUEHD : Nat := 0x16
def IEC61937_DTS1 : Nat := 0x0B
def IEC61937_DTS2 : Nat := 0x0C
def IEC61937_DTS3 : Nat := 0x0D

/-- Return status of a strategy call: `SPDIF_SUCCESS`, `SPDIF_MORE_DATA` or
`SPDIF_ERROR`. -/
inductive SpdifRet
  | success
  | more_data
  | error
deriving DecidableEq

/-- Session state right after `Open`: no packet in progress, the `spec`
union zeroed (the write offset is only meaningful while a packet is in
progress). -/
def freshState : filter_sys_t :=
  { p_out_buf := none, i_out_offset := 0, spec_counter := 0 }

/-- `fmt_out.audio.i_format == VLC_CODEC_SPDIFB`. -/
def b_output_big_endian (cfg : Cfg) : Bool :=
  match cfg.fmt_out with
  | .spdifb => true
  | .spdifl => false

/-- `is_big_endian`: input byte order by codec; for DTS it depends on the
first payload byte being one of the two big-endian sync markers. -/
def is_big_endian (cfg : Cfg) (p_in_buf : block_t) : Bool :=
  match cfg.fmt_in with
  | .a52 | .eac3 | .mlp | .truehd => true
  | .dts =>
      p_in_buf.p_buffer.getD 0 0 == 0x1F || p_in_buf.p_buffer.getD 0 0 == 0x7F

/-- Overwrite the byte range `[off, off+len)` of a byte store, the byte at
`off + k` becoming `g k`. -/
def writeRegion (f : Nat → Nat) (off len : Nat) (g : Nat → Nat) : Nat → Nat :=
  fun j => if off ≤ j ∧ j < off + len then g (j - off) else f j

/-- `write_16`: store a 16-bit value at byte position `pos`, big-endian
(`SetWBE`) when the output format is `VLC_CODEC_SPDIFB`, little-endian
(`SetWLE`) otherwise. -/
def write_16 (cfg : Cfg) (f : Nat → Nat) (pos v : Nat) : Nat → Nat :=
  writeRegion f pos 2 (fun k =>
    match cfg.fmt_out with
    | .spdifb => if k = 0 then v % 65536 / 256 else v % 256
    | .spdifl => if k = 0 then v % 256 else v % 65536 / 256)

/-- Index adjustment performed by `swab`: when source and destination byte
orders differ adjacent bytes are exchanged pairwise (index XOR 1). -/
def swapN (bin bout : Bool) : Nat := if bin != bout then 1 else 0

/-- `write_padding`: write `i_size` zero bytes at the current offset and
advance it.  (The C function asserts a packet is in progress; the `none`
branch is unreachable in every caller.) -/
def write_padding (cfg : Cfg) (st : filter_sys_t) (i_size : Nat) : filter_sys_t :=
  match st.p_out_buf with
  | none => st
  | some ob =>
      { st with
        p_out_buf := some
          { ob with data := writeRegion ob.data st.i_out_offset i_size (fun _ => 0) },
        i_out_offset := st.i_out_offset + i_size }

/-- `write_data`: copy `i_size & ~1` bytes at the current offset, swapping
adjacent bytes (`swab`) when source and destination byte orders differ; if
the count is odd the final source byte is written as a standalone 16-bit
value (low byte zero) in destination byte order. -/
def write_data (cfg : Cfg) (st : filter_sys_t) (src : List Nat)
    (b_input_big_endian : Bool) : filter_sys_t :=
  match st.p_out_buf with
  | none => st
  | some ob =>
      let evenLen := src.length - src.length % 2
      let data1 : Nat → Nat :=
        if b_input_big_endian != b_output_big_endian cfg then
          writeRegion ob.data st.i_out_offset evenLen (fun k => src.getD (k ^^^ 1) 0)
        else
          writeRegion ob.data st.i_out_offset evenLen (fun k => src.getD k 0)
      if src.length % 2 = 1 then
        let data2 := write_16 cfg data1 (st.i_out_offset + evenLen)
          (src.getD (src.length - 1) 0 <<< 8)
        { st with
          p_out_buf := some { ob with data := data2 },
          i_out_offset := st.i_out_offset + evenLen + 2 }
      else
        { st with
          p_out_buf := some { ob with data := data1 },
          i_out_offset := st.i_out_offset + evenLen }

/-- `write_buffer`: append the valid bytes of an input frame and accumulate
its duration into the output packet. -/
def write_buffer (cfg : Cfg) (st : filter_sys_t) (p_in_buf : block_t) : filter_sys_t :=
  let st1 := write_data cfg st (p_in_buf.p_buffer.take p_in_buf.i_buffer)
    (is_big_endian cfg p_in_buf)
  match st1.p_out_buf with
  | none => st1
  | some ob =>
      { st1 with p_out_buf := some { ob with i_length := ob.i_length + p_in_buf.i_length } }

/-- `write_init`: allocate the output packet (`block_Alloc`, modelled as
always succeeding), copy the timestamps of the input frame, set the sample
count and reserve the first 8 bytes for the S/PDIF header.  The C function
asserts that no packet is in progress, that the size exceeds the header and
that it is a multiple of 4. -/
def write_init (cfg : Cfg) (st : filter_sys_t) (p_in_buf : block_t)
    (i_out_size : Nat) (i_nb_samples : Nat) : filter_sys_t :=
  { st with
    p_out_buf := some
      { i_buffer := i_out_size
        data := cfg.alloc
        i_dts := p_in_buf.i_dts
        i_pts := p_in_buf.i_pts
        i_nb_samples := i_nb_samples
        i_length := 0 }
    i_out_offset := SPDIF_HEADER_SIZE }

/-- `write_finalize`: when the data-type code is non-zero write the S/PDIF
burst header (two sync words, data type, and the length of the payload
multiplied by `i_length_mul`) at offset 0; always zero-pad the remaining
space.  (The `none` branch mirrors the unreachable violated assertion.) -/
def write_finalize (cfg : Cfg) (st : filter_sys_t) (i_data_type : Nat)
    (i_length_mul : Nat) : filter_sys_t :=
  match st.p_out_buf with
  | none => st
  | some ob =>
      let data1 : Nat → Nat :=
        if i_data_type ≠ 0 then
          write_16 cfg
            (write_16 cfg
              (write_16 cfg
                (write_16 cfg ob.data 0 0xf872)
                2 0x4e1f)
              4 i_data_type)
            6 ((st.i_out_offset - SPDIF_HEADER_SIZE) * i_length_mul)
        else ob.data
      let st1 := { st with p_out_buf := some { ob with data := data1 } }
      if st.i_out_offset < ob.i_buffer then
        write_padding cfg st1 (ob.i_buffer - st.i_out_offset)
      else st1

/-- The conjunction of the `assert` statements executed by a call to
`write_finalize`: a packet must be in progress, and for a non-zero data
type the offset must exceed the header size and the multiplier must be 1 or
8.  `false` means an assertion fires (contract violation). -/
def write_finalize_asserts (st : filter_sys_t) (i_data_type : Nat)
    (i_length_mul : Nat) : Bool :=
  match st.p_out_buf with
  | none => false
  | some _ =>
      if i_data_type ≠ 0 then
        decide (SPDIF_HEADER_SIZE < st.i_out_offset) &&
          (i_length_mul == 1 || i_length_mul == 8)
      else true

def A52_FRAME_NB : Nat := 1536

/-- `write_buffer_ac3`: one AC-3 frame becomes one fixed-size packet.  If
the frame is not pre-packetized (size outside `[6, 6144]` or wrong sample
count) the header parser recovers size and samples; failure, an E-AC-3
stream, or a size exceeding the buffer is an error. -/
def write_buffer_ac3 (cfg : Cfg) (st : filter_sys_t) (p_in_buf : block_t) :
    filter_sys_t × SpdifRet :=
  let a52_size := A52_FRAME_NB * 4
  let parsed : Option block_t :=
    if p_in_buf.i_buffer < 6 ∨ p_in_buf.i_buffer > a52_size ∨
        p_in_buf.i_nb_samples ≠ A52_FRAME_NB then
      match cfg.a52_parse (p_in_buf.p_buffer.take p_in_buf.i_buffer) with
      | none => none
      | some a52 =>
          if a52.b_eac3 || decide (a52.i_size > p_in_buf.i_buffer) then none
          else some { p_in_buf with i_buffer := a52.i_size, i_nb_samples := a52.i_samples }
    else some p_in_buf
  match parsed with
  | none => (st, .error)
  | some inb =>
      if inb.i_buffer + SPDIF_HEADER_SIZE > a52_size then (st, .error)
      else
        let st1 := write_init cfg st inb a52_size A52_FRAME_NB
        let st2 := write_buffer cfg st1 inb
        let st3 := write_finalize cfg st2
          (IEC61937_AC3 ||| ((inb.p_buffer.getD 5 0 &&& 0x7) <<< 8)) 8
        (st3, .success)

/-- Modelled from the spec: `AOUT_SPDIF_SIZE`, the configured S/PDIF
super-frame sample count (defined in the aout headers, outside this file's
source); VLC configures it to 6144, giving a 24576-byte E-AC-3 packet. -/
def AOUT_SPDIF_SIZE : Nat := 6144

/-- The per-frame accumulation decision of `write_buffer_eac3`, taken on
the state `st1` right after the frame was appended (cf. Annex E 2.3.1.2 of
the AC-3 spec): for E-AC-3 frames of stream-type independent or
AC-3-convert that do not carry 6 blocks per sync frame, add the block
count when the sub-stream id is 0 and emit only when the counter is
exactly 6 (resetting it); other E-AC-3 frames finalize immediately; frames
parsing as plain AC-3 only return need-more-data. -/
def eac3_tail (cfg : Cfg) (st1 : filter_sys_t) (a52 : vlc_a52_header_t) :
    filter_sys_t × SpdifRet :=
  if a52.b_eac3 then
    if (a52.strmtyp = .independent ∨ a52.strmtyp = .ac3_convert) ∧
        a52.i_blocks_per_sync_frame ≠ 6 then
      let st2 :=
        if a52.i_substreamid = 0 then
          { st1 with spec_counter := st1.spec_counter + a52.i_blocks_per_sync_frame }
        else st1
      if st2.spec_counter ≠ 6 then (st2, .more_data)
      else
        (write_finalize cfg { st2 with spec_counter := 0 } IEC61937_EAC3 1, .success)
    else (write_finalize cfg st1 IEC61937_EAC3 1, .success)
  else (st1, .more_data)

/-- `write_buffer_eac3`: always re-parse the header; start a packet only if
none is in progress; reject frames overflowing the remaining space; then
append the frame and decide through `eac3_tail`. -/
def write_buffer_eac3 (cfg : Cfg) (st : filter_sys_t) (p_in_buf : block_t) :
    filter_sys_t × SpdifRet :=
  match cfg.a52_parse (p_in_buf.p_buffer.take p_in_buf.i_buffer) with
  | none => (st, .error)
  | some a52 =>
      if a52.i_size > p_in_buf.i_buffer then (st, .error)
      else
        let inb := { p_in_buf with i_buffer := a52.i_size, i_nb_samples := a52.i_samples }
        let st0 :=
          if st.p_out_buf.isNone then
            write_init cfg st inb (AOUT_SPDIF_SIZE * 4) AOUT_SPDIF_SIZE
          else st
        match st0.p_out_buf with
        | none => (st0, .error)
        | some ob =>
            if inb.i_buffer > ob.i_buffer - st0.i_out_offset then (st0, .error)
            else eac3_tail cfg (write_buffer cfg st0 inb) a52

def TRUEHD_FRAME_OFFSET : Nat := 2560

/-- The 20-byte MAT start code (`p_mat_start_code`). -/
def p_mat_start_code : List Nat :=
  [0x07, 0x9E, 0x00, 0x03, 0x84, 0x01, 0x01, 0x01, 0x80, 0x00,
   0x56, 0xA5, 0x3B, 0xF4, 0x81, 0x83, 0x49, 0x80, 0x77, 0xE0]

/-- The 12-byte MAT middle code (`p_mat_middle_code`). -/
def p_mat_middle_code : List Nat :=
  [0xC3, 0xC1, 0x42, 0x49, 0x3B, 0xFA,
   0x82, 0x83, 0x49, 0x80, 0x77, 0xE0]

/-- The 16-byte MAT end code (`p_mat_end_code`). -/
def p_mat_end_code : List Nat :=
  [0xC3, 0xC2, 0xC0, 0xC4, 0x00, 0x00, 0x00, 0x00,
   0x00, 0x00, 0x00, 0x00, 0x00, 0x00, 0x97, 0x11]

/-- Shared tail of the TrueHD accumulation branches: validate the padding,
append the frame and the zero padding, bump the frame counter and ask for
more data.  (The padding is a C `int`, hence `Int`; a negative value or an
overflow of the remaining space is an unrecoverable error, returned with
the state as already mutated by the current call.) -/
def truehd_tail (cfg : Cfg) (st : filter_sys_t) (p_in_buf : block_t)
    (i_padding : Int) : filter_sys_t × SpdifRet :=
  match st.p_out_buf with
  | none => (st, .error)
  | some ob =>
      if i_padding < 0 ∨
          p_in_buf.i_buffer + i_padding.toNat > ob.i_buffer - st.i_out_offset then
        (st, .error)
      else
        let st1 := write_buffer cfg st p_in_buf
        let st2 := write_padding cfg st1 i_padding.toNat
        ({ st2 with spec_counter := st2.spec_counter + 1 }, .more_data)

/-- `write_buffer_truehd`: pack 24 TrueHD frames into one 61440-byte MAT
super-frame of 24 slots of 2560 bytes.  Frame 0 begins the packet and
writes the start code (the padding accounts for the code and the S/PDIF
header); frame 11 pads so the next slot starts 4 bytes early; frame 12
writes the middle code; frame 23 appends the end code, finalizes and
resets the counter; all other frames pad to a flat 2560-byte slot. -/
def write_buffer_truehd (cfg : Cfg) (st : filter_sys_t) (p_in_buf : block_t) :
    filter_sys_t × SpdifRet :=
  let st0 :=
    if st.p_out_buf.isNone then write_init cfg st p_in_buf 61440 (61440 / 16)
    else st
  if st0.spec_counter = 0 then
    let st1 := write_data cfg st0 p_mat_start_code true
    truehd_tail cfg st1 p_in_buf
      ((TRUEHD_FRAME_OFFSET : Int) - p_in_buf.i_buffer - 20 - SPDIF_HEADER_SIZE)
  else if st0.spec_counter = 11 then
    truehd_tail cfg st0 p_in_buf ((TRUEHD_FRAME_OFFSET : Int) - p_in_buf.i_buffer - 4)
  else if st0.spec_counter = 12 then
    let st1 := write_data cfg st0 p_mat_middle_code true
    truehd_tail cfg st1 p_in_buf
      ((TRUEHD_FRAME_OFFSET : Int) - p_in_buf.i_buffer - (12 - 4))
  else if st0.spec_counter = 23 then
    let i_padding : Int := (TRUEHD_FRAME_OFFSET : Int) - p_in_buf.i_buffer - 24
    match st0.p_out_buf with
    | none => (st0, .error)
    | some ob =>
        if i_padding < 0 ∨
            p_in_buf.i_buffer + i_padding.toNat > ob.i_buffer - st0.i_out_offset then
          (st0, .error)
        else
          let st1 := write_buffer cfg st0 p_in_buf
          let st2 := write_padding cfg st1 i_padding.toNat
          let st3 := write_data cfg st2 p_mat_end_code true
          let st4 := write_finalize cfg st3 IEC61937_TRUEHD 1
          ({ st4 with spec_counter := 0 }, .success)
  else
    truehd_tail cfg st0 p_in_buf ((TRUEHD_FRAME_OFFSET : Int) - p_in_buf.i_buffer)

/-- `write_buffer_dts`: parse the header when the frame is not pre-tagged;
map the sample count to the IEC 61937 DTS data type (512/1024/2048, any
other count is unsupported); when the payload exactly fills `samples * 4`,
drop the burst header and start the payload at byte 0; when payload plus
header would overflow, error. -/
def write_buffer_dts (cfg : Cfg) (st : filter_sys_t) (p_in_buf : block_t) :
    filter_sys_t × SpdifRet :=
  let parsed : Option block_t :=
    if p_in_buf.i_nb_samples = 0 then
      match cfg.dts_parse (p_in_buf.p_buffer.take p_in_buf.i_buffer) with
      | none => none
      | some hdr =>
          some { p_in_buf with
                 i_nb_samples := hdr.i_frame_length, i_buffer := hdr.i_frame_size }
    else some p_in_buf
  match parsed with
  | none => (st, .error)
  | some inb =>
      let dtOpt : Option Nat :=
        if inb.i_nb_samples = 512 then some IEC61937_DTS1
        else if inb.i_nb_samples = 1024 then some IEC61937_DTS2
        else if inb.i_nb_samples = 2048 then some IEC61937_DTS3
        else none
      match dtOpt with
      | none => (st, .error)
      | some dt0 =>
          let i_data_type := if inb.i_buffer = inb.i_nb_samples * 4 then 0 else dt0
          if inb.i_buffer ≠ inb.i_nb_samples * 4 ∧
              inb.i_buffer + SPDIF_HEADER_SIZE > inb.i_nb_samples * 4 then
            (st, .error)
          else
            let st1 := write_init cfg st inb (inb.i_nb_samples * 4) inb.i_nb_samples
            let st2 := if i_data_type = 0 then { st1 with i_out_offset := 0 } else st1
            let st3 := write_buffer cfg st2 inb
            (write_finalize cfg st3 i_data_type 8, .success)

/-- `Flush`: release any in-progress packet and zero the `spec` union (the
write offset is left as is; it is only meaningful while a packet exists). -/
def Flush (st : filter_sys_t) : filter_sys_t :=
  { st with p_out_buf := none, spec_counter := 0 }

/-- Codec dispatch of `DoWork` (the `switch` on `fmt_in.audio.i_format`). -/
def dispatch (cfg : Cfg) (st : filter_sys_t) (p_in_buf : block_t) :
    filter_sys_t × SpdifRet :=
  match cfg.fmt_in with
  | .a52 => write_buffer_ac3 cfg st p_in_buf
  | .eac3 => write_buffer_eac3 cfg st p_in_buf
  | .mlp | .truehd => write_buffer_truehd cfg st p_in_buf
  | .dts => write_buffer_dts cfg st p_in_buf

/-- Observable outcome of one `DoWork` call: the new session state, the
completed packet if any, the strategy's return status, and whether the
input frame was released (`block_Release` runs on every path). -/
structure DoWorkResult where
  st : filter_sys_t
  out : Option out_block_t
  ret : SpdifRet
  input_released : Bool

/-- `DoWork`: route the frame to its strategy; on success hand the
completed packet to the caller, on error flush the session; the input
frame is released unconditionally. -/
def DoWork (cfg : Cfg) (st : filter_sys_t) (p_in_buf : block_t) : DoWorkResult :=
  let d := dispatch cfg st p_in_buf
  match d.2 with
  | .success => ⟨{ d.1 with p_out_buf := none }, d.1.p_out_buf, .success, true⟩
  | .more_data => ⟨d.1, none, .more_data, true⟩
  | .error => ⟨Flush d.1, none, .error, true⟩

/-- Feed a list of frames through successive `DoWork` calls, collecting the
per-call return status and emitted packet. -/
def runFrames (cfg : Cfg) (st : filter_sys_t) (frames : List block_t) :
    filter_sys_t × List (SpdifRet × Option out_block_t) :=
  match frames with
  | [] => (st, [])
  | f :: rest =>
      let r := DoWork cfg st f
      let rec_ := runFrames cfg r.st rest
      (rec_.1, (r.ret, r.out) :: rec_.2)

/-- Byte-index adjustment applied by `write_data` to big-endian source data
(the three MAT codes are written with `b_input_big_endian = true`): indices
are XORed with 1 exactly when the output format is little-endian. -/
def matCodeSwap (cfg : Cfg) : Nat := swapN true (b_output_big_endian cfg)

/-- The byte range of an output packet starting at `base` holds the given
code, byte-order-adjusted for the output format. -/
def markerAt (cfg : Cfg) (ob : out_block_t) (base : Nat) (code : List Nat) : Prop :=
  ∀ j, j < code.length → ob.data (base + j) = code.getD (j ^^^ matCodeSwap cfg) 0

/-- A TrueHD frame of nominal size: an even byte count that leaves room for
every marker code and padding in its 2560-byte slot, with `i_buffer` valid
bytes actually present in the store. -/
def truehd_nominal (b : block_t) : Prop :=
  b.i_buffer % 2 = 0 ∧ b.i_buffer ≤ 2532 ∧ b.i_buffer ≤ b.p_buffer.length

/-- Write offset of the TrueHD strategy after `k` frames of nominal size
(slot 11 ends 4 bytes early so that the middle code starts at
`2560 * 12 - 4`). -/
def thdOff (k : Nat) : Nat := if k = 12 then 2560 * 12 - 4 else 2560 * k

/-- State invariant of the TrueHD strategy after `k` nominal frames of a
super-frame have been processed: the counter equals `k` and, once the
packet exists, the offset is `thdOff k`, the start code sits at offset 8,
and from frame 13 on the middle code sits at `2560 * 12 - 4`. -/
def truehd_inv (cfg : Cfg) (st : filter_sys_t) (k : Nat) : Prop :=
  st.spec_counter = k ∧
  ((k = 0 ∧ st.p_out_buf = none) ∨
   (1 ≤ k ∧ k ≤ 23 ∧ ∃ ob, st.p_out_buf = some ob ∧ ob.i_buffer = 61440 ∧
      st.i_out_offset = thdOff k ∧
      markerAt cfg ob 8 p_mat_start_code ∧
      (13 ≤ k → markerAt cfg ob (2560 * 12 - 4) p_mat_middle_code)))

/-- Reachable-state invariant of the E-AC-3 strategy: any in-progress
packet was allocated with the fixed E-AC-3 output size and the write
offset stayed between the reserved header and the end of the packet. -/
def eac3_state_ok (st : filter_sys_t) : Prop :=
  match st.p_out_buf with
  | none => True
  | some ob => ob.i_buffer = AOUT_SPDIF_SIZE * 4 ∧
      SPDIF_HEADER_SIZE ≤ st.i_out_offset ∧ st.i_out_offset ≤ ob.i_buffer

/-- The appended frame size fits the remaining space of the (possibly still
to be allocated) E-AC-3 output packet. -/
def eac3_fits (st : filter_sys_t) (sz : Nat) : Prop :=
  match st.p_out_buf with
  | none => sz ≤ AOUT_SPDIF_SIZE * 4 - SPDIF_HEADER_SIZE
  | some ob => sz ≤ ob.i_buffer - st.i_out_offset

/-- A TrueHD session configuration used for concrete evaluations:
big-endian output words, trivial parsers, zeroed fresh buffers. -/
def cfgTHD : Cfg :=
  { fmt_in := .truehd, fmt_out := .spdifb,
    a52_parse := fun _ => none, dts_parse := fun _ => none, alloc := fun _ => 0 }

/-- An empty (zero-byte) TrueHD frame; trivially of nominal size. -/
def blkTHD : block_t :=
  { p_buffer := [], i_buffer := 0, i_nb_samples := 0, i_dts := 0, i_pts := 0,
    i_length := 0 }

/-- One full MAT super-frame: 24 empty nominal frames through a fresh
session. -/
def thdRun : filter_sys_t × List (SpdifRet × Option out_block_t) :=
  runFrames cfgTHD freshState (List.replicate 24 blkTHD)

/-- The packet produced by the 24th call of `thdRun`. -/
def thdPkt : out_block_t :=
  ((thdRun.2.getD 23 (.error, none)).2).getD
    { i_buffer := 0, data := fun _ => 0, i_dts := 0, i_pts := 0,
      i_nb_samples := 0, i_length := 0 }

/-- A default (empty) output packet, used only as the fallback of `Option.getD`. -/
def emptyOut : out_block_t :=
  { i_buffer := 0, data := (fun _ => 0), i_dts := 0, i_pts := 0,
    i_nb_samples := 0, i_length := 0 }

/-- A small allocated packet used for concrete evaluations of the writer
primitives: 8 zeroed bytes. -/
def obW : out_block_t :=
  { i_buffer := 8, data := (fun _ => 0), i_dts := 0, i_pts := 0,
    i_nb_samples := 0, i_length := 0 }

/-- A session state holding `obW` in progress with write offset 0. -/
def stW : filter_sys_t :=
  { p_out_buf := some obW, i_out_offset := 0, spec_counter := 0 }

/-- An AC-3 session configuration used for concrete evaluations. -/
def cfgA52 : Cfg :=
  { fmt_in := .a52, fmt_out := .spdifb,
    a52_parse := fun _ => none, dts_parse := fun _ => none, alloc := (fun _ => 0) }

/-- A six-byte pre-packetized AC-3 frame (sample count 1536). -/
def blkA52 : block_t :=
  { p_buffer := [0x0B, 0x77, 0x00, 0x00, 0x00, 0x00], i_buffer := 6,
    i_nb_samples := 1536, i_dts := 0, i_pts := 0, i_length := 0 }

/-- The session state right after the AC-3 strategy finalized one packet,
before `DoWork` detaches it: the completed packet is still in progress. -/
def stFinalized : filter_sys_t :=
  write_finalize cfgA52
    (write_buffer cfgA52
      (write_init cfgA52 freshState blkA52 (A52_FRAME_NB * 4) A52_FRAME_NB)
      blkA52)
    IEC61937_AC3 8

/-- The packet held by `stFinalized`. -/
def obFinalized : out_block_t := stFinalized.p_out_buf.getD emptyOut

/-- A TrueHD frame whose 2552-byte count leaves the padding of slot 0
negative: feeding it to a fresh session is an unrecoverable error. -/
def blkErr : block_t :=
  { p_buffer := [], i_buffer := 2552, i_nb_samples := 0, i_dts := 0, i_pts := 0,
    i_length := 0 }

/-- A DTS session configuration used for concrete evaluations. -/
def cfgDTS : Cfg :=
  { fmt_in := .dts, fmt_out := .spdifb,
    a52_parse := fun _ => none, dts_parse := fun _ => none, alloc := (fun _ => 0) }

/-- A pre-tagged 16-byte DTS frame of 512 samples whose first byte is the
big-endian sync marker 0x1F. -/
def blkDTS : block_t :=
  { p_buffer := List.replicate 16 0x1F, i_buffer := 16, i_nb_samples := 512,
    i_dts := 0, i_pts := 0, i_length := 0 }

/-- An E-AC-3 header as parsed from a plain AC-3 core frame inside an
E-AC-3 stream (`b_eac3 = false`). -/
def a52Plain : vlc_a52_header_t :=
  { b_eac3 := false, i_size := 2, i_samples := 256, i_blocks_per_sync_frame := 6,
    strmtyp := .independent, i_substreamid := 0 }

/-- An E-AC-3 header of an independent sub-stream-0 frame carrying 4 blocks
per sync frame (fewer than 6). -/
def a52Accum : vlc_a52_header_t :=
  { b_eac3 := true, i_size := 2, i_samples := 256, i_blocks_per_sync_frame := 4,
    strmtyp := .independent, i_substreamid := 0 }

/-- An E-AC-3 session whose parser always recovers `a52Plain`. -/
def cfgEAC3p : Cfg :=
  { fmt_in := .eac3, fmt_out := .spdifb,
    a52_parse := fun _ => some a52Plain, dts_parse := fun _ => none,
    alloc := (fun _ => 0) }

/-- An E-AC-3 header of an independent frame already carrying 6 blocks per
sync frame (outside the accumulation rule). -/
def a52Six : vlc_a52_header_t :=
  { b_eac3 := true, i_size := 2, i_samples := 1536, i_blocks_per_sync_frame := 6,
    strmtyp := .independent, i_substreamid := 0 }

/-- An E-AC-3 session whose parser always recovers `a52Six`. -/
def cfgEAC3s : Cfg :=
  { fmt_in := .eac3, fmt_out := .spdifb,
    a52_parse := fun _ => some a52Six, dts_parse := fun _ => none,
    alloc := (fun _ => 0) }

/-- An E-AC-3 session whose parser always recovers `a52Accum`. -/
def cfgEAC3a : Cfg :=
  { fmt_in := .eac3, fmt_out := .spdifb,
    a52_parse := fun _ => some a52Accum, dts_parse := fun _ => none,
    alloc := (fun _ => 0) }

/-- A two-byte frame fed to the E-AC-3 strategy. -/
def blkEAC3 : block_t :=
  { p_buffer := [0x0B, 0x77], i_buffer := 2, i_nb_samples := 0, i_dts := 0,
    i_pts := 0, i_length := 0 }

/-- An in-progress E-AC-3 output packet of the fixed size. -/
def obEAC3 : out_block_t :=
  { i_buffer := AOUT_SPDIF_SIZE * 4, data := (fun _ => 0), i_dts := 0, i_pts := 0,
    i_nb_samples := AOUT_SPDIF_SIZE, i_length := 0 }

/-- An E-AC-3 session state whose sub-stream-0 block counter has jumped
past 6 (to 7). -/
def stEAC3c7 : filter_sys_t :=
  { p_out_buf := some obEAC3, i_out_offset := 8, spec_counter := 7 }

/-- A fresh-session E-AC-3 state with the counter at 2, so that one more
4-block frame reaches exactly 6. -/
def stEAC3c2 : filter_sys_t :=
  { p_out_buf := some obEAC3, i_out_offset := 8, spec_counter := 2 }

/-! ### Helper lemmas on the byte-store primitives -/

theorem writeRegion_lt (f : Nat → Nat) (off len : Nat) (g : Nat → Nat) (j : Nat)
    (h : j < off) : writeRegion f off len g j = f j := by
  simp only [writeRegion]
  rw [if_neg (by omega)]

theorem writeRegion_ge (f : Nat → Nat) (off len : Nat) (g : Nat → Nat) (j : Nat)
    (h : off + len ≤ j) : writeRegion f off len g j = f j := by
  simp only [writeRegion]
  rw [if_neg (by omega)]

theorem writeRegion_in (f : Nat → Nat) (off len : Nat) (g : Nat → Nat) (j : Nat)
    (h1 : off ≤ j) (h2 : j < off + len) : writeRegion f off len g j = g (j - off) := by
  simp only [writeRegion]
  rw [if_pos ⟨h1, h2⟩]

theorem write_16_lt (cfg : Cfg) (f : Nat → Nat) (pos v j : Nat) (h : j < pos) :
    write_16 cfg f pos v j = f j :=
  writeRegion_lt _ _ _ _ _ h

theorem write_16_ge (cfg : Cfg) (f : Nat → Nat) (pos v j : Nat) (h : pos + 2 ≤ j) :
    write_16 cfg f pos v j = f j :=
  writeRegion_ge _ _ _ _ _ h

theorem write_16_hi (cfg : Cfg) (f : Nat → Nat) (pos v : Nat) :
    write_16 cfg f pos v pos =
      (if b_output_big_endian cfg = true then v % 65536 / 256 else v % 256) := by
  have h := writeRegion_in f pos 2
    (fun k =>
      match cfg.fmt_out with
      | .spdifb => if k = 0 then v % 65536 / 256 else v % 256
      | .spdifl => if k = 0 then v % 256 else v % 65536 / 256) pos
    (Nat.le_refl _) (by omega)
  simp only [write_16, h, Nat.sub_self]
  cases hfmt : cfg.fmt_out <;> simp [b_output_big_endian, hfmt]

theorem write_16_lo (cfg : Cfg) (f : Nat → Nat) (pos v : Nat) :
    write_16 cfg f pos v (pos + 1) =
      (if b_output_big_endian cfg = true then v % 256 else v % 65536 / 256) := by
  have h := writeRegion_in f pos 2
    (fun k =>
      match cfg.fmt_out with
      | .spdifb => if k = 0 then v % 65536 / 256 else v % 256
      | .spdifl => if k = 0 then v % 256 else v % 65536 / 256) (pos + 1)
    (by omega) (by omega)
  simp only [write_16, h, Nat.add_sub_cancel_left]
  cases hfmt : cfg.fmt_out <;> simp [b_output_big_endian, hfmt]

theorem write_data_even (cfg : Cfg) (st : filter_sys_t) (ob : out_block_t)
    (hob : st.p_out_buf = some ob) (src : List Nat) (bIn : Bool)
    (h2 : src.length % 2 = 0) :
    write_data cfg st src bIn =
      { st with
        p_out_buf := some
          { ob with data := (writeRegion ob.data st.i_out_offset src.length
              (fun k => src.getD (k ^^^ swapN bIn (b_output_big_endian cfg)) 0)) },
        i_out_offset := st.i_out_offset + src.length } := by
  by_cases hsw : (bIn != b_output_big_endian cfg) = true <;>
    simp only [write_data, hob, h2, hsw, swapN, Nat.sub_zero, if_true, if_false,
      Bool.not_eq_true, one_ne_zero, reduceIte] <;>
    simp [hsw]

theorem write_data_odd (cfg : Cfg) (st : filter_sys_t) (ob : out_block_t)
    (hob : st.p_out_buf = some ob) (src : List Nat) (bIn : Bool)
    (h2 : src.length % 2 = 1) :
    write_data cfg st src bIn =
      { st with
        p_out_buf := some
          { ob with data := (write_16 cfg
              (writeRegion ob.data st.i_out_offset (src.length - 1)
                (fun k => src.getD (k ^^^ swapN bIn (b_output_big_endian cfg)) 0))
              (st.i_out_offset + (src.length - 1))
              (src.getD (src.length - 1) 0 <<< 8)) },
        i_out_offset := st.i_out_offset + (src.length - 1) + 2 } := by
  by_cases hsw : (bIn != b_output_big_endian cfg) = true <;>
    simp only [write_data, hob, h2, hsw, swapN, if_true, if_false, reduceIte] <;>
    simp [hsw]

/-! ### Claim C8 -/

/-- C8: for every call to `write_data` with an odd byte count N (and
sufficient remaining space), exactly N−1 source bytes are copied verbatim
(byte-swapped when source and destination byte orders differ), followed by
one extra 16-bit word in destination byte order whose high byte is the last
source byte and whose low byte is 0; the write offset advances by N+1. -/
theorem claim_C8 (cfg : Cfg) (st : filter_sys_t) (ob : out_block_t)
    (hob : st.p_out_buf = some ob) (src : List Nat) (bIn : Bool)
    (hodd : src.length % 2 = 1)
    (hlast : src.getD (src.length - 1) 0 < 256)
    (hspace : st.i_out_offset + src.length + 1 ≤ ob.i_buffer) :
    ∃ ob2, (write_data cfg st src bIn).p_out_buf = some ob2 ∧
      (write_data cfg st src bIn).i_out_offset = st.i_out_offset + src.length + 1 ∧
      (∀ i, i < src.length - 1 →
        ob2.data (st.i_out_offset + i) =
          src.getD (i ^^^ swapN bIn (b_output_big_endian cfg)) 0) ∧
      (b_output_big_endian cfg = true →
        ob2.data (st.i_out_offset + (src.length - 1)) = src.getD (src.length - 1) 0 ∧
        ob2.data (st.i_out_offset + src.length) = 0) ∧
      (b_output_big_endian cfg = false →
        ob2.data (st.i_out_offset + (src.length - 1)) = 0 ∧
        ob2.data (st.i_out_offset + src.length) = src.getD (src.length - 1) 0) := by
  rw [write_data_odd cfg st ob hob src bIn hodd]
  have hv : src.getD (src.length - 1) 0 <<< 8 = src.getD (src.length - 1) 0 * 256 := by
    rw [Nat.shiftLeft_eq]
  refine ⟨_, rfl, by simp only []; omega, ?_, ?_, ?_⟩
  · intro i hi
    simp only
    rw [write_16_lt _ _ _ _ _ (by omega),
      writeRegion_in _ _ _ _ _ (by omega) (by omega), Nat.add_sub_cancel_left]
  · intro hbig
    constructor
    · simp only
      rw [write_16_hi, hv, if_pos hbig]; omega
    · have hs : st.i_out_offset + src.length =
          st.i_out_offset + (src.length - 1) + 1 := by omega
      simp only
      rw [hs, write_16_lo, hv, if_pos hbig]; omega
  · intro hlit
    constructor
    · simp only
      rw [write_16_hi, hv, if_neg (by simp [hlit])]; omega
    · have hs : st.i_out_offset + src.length =
          st.i_out_offset + (src.length - 1) + 1 := by omega
      simp only
      rw [hs, write_16_lo, hv, if_neg (by simp [hlit])]; omega

/-- Witness for C8: the odd-count append evaluated on the concrete state
`stW` with source bytes `[1, 2, 3]`. -/
theorem claim_C8_witness :
    ∃ ob2, (write_data cfgTHD stW [1, 2, 3] true).p_out_buf = some ob2 ∧
      (write_data cfgTHD stW [1, 2, 3] true).i_out_offset = 0 + 3 + 1 ∧
      (∀ i, i < 2 →
        ob2.data (0 + i) =
          [1, 2, 3].getD (i ^^^ swapN true (b_output_big_endian cfgTHD)) 0) ∧
      (b_output_big_endian cfgTHD = true →
        ob2.data (0 + 2) = [1, 2, 3].getD 2 0 ∧ ob2.data (0 + 3) = 0) ∧
      (b_output_big_endian cfgTHD = false →
        ob2.data (0 + 2) = 0 ∧ ob2.data (0 + 3) = [1, 2, 3].getD 2 0) :=
  claim_C8 cfgTHD stW obW rfl [1, 2, 3] true (by decide) (by decide) (by decide)

/-! ### Claim C9 -/

/-- C9 (counterexample): after one complete Finalize the packet of
`stFinalized` is still in progress, and a second call to Finalize with the
same arguments passes every assertion of `write_finalize` — it is silently
accepted, not rejected as a contract violation. -/
theorem claim_C9_counterexample :
    stFinalized.p_out_buf.isSome = true ∧
    write_finalize_asserts stFinalized IEC61937_AC3 8 = true := by
  decide

/-- C9 (amended): a second Finalize on the same still-in-progress packet
passes all assertions of `write_finalize` (silently accepted); an assertion
fires only when no packet is in progress — in particular after `DoWork`
has detached the completed packet on success. -/
theorem claim_C9 (st st2 : filter_sys_t) (ob : out_block_t)
    (hnone : st.p_out_buf = none)
    (hob : st2.p_out_buf = some ob) (hoff : SPDIF_HEADER_SIZE < st2.i_out_offset)
    (dt mul : Nat) (hmul : mul = 1 ∨ mul = 8) :
    write_finalize_asserts st dt mul = false ∧
    write_finalize_asserts st2 dt mul = true := by
  constructor
  · simp [write_finalize_asserts, hnone]
  · simp only [write_finalize_asserts, hob]
    by_cases hdt : dt = 0
    · simp [hdt]
    · simp [hdt, hoff]
      rcases hmul with h | h <;> simp [h]

/-- Witness for C9 (amended): evaluated on the fresh state and on
`stFinalized`. -/
theorem claim_C9_witness :
    write_finalize_asserts freshState IEC61937_AC3 8 = false ∧
    write_finalize_asserts stFinalized IEC61937_AC3 8 = true :=
  claim_C9 freshState stFinalized obFinalized rfl rfl (by decide)
    IEC61937_AC3 8 (Or.inr rfl)

/-! ### Claim C7 -/

/-- C7: a call whose strategy ends in an unrecoverable error leaves the
session flushed (no in-progress packet, counters zeroed, nothing emitted);
`Flush` always yields the empty session state and is idempotent; and the
input frame is released by `DoWork` on every path. -/
theorem claim_C7 (cfg : Cfg) (st : filter_sys_t) (p_in_buf : block_t) :
    ((dispatch cfg st p_in_buf).2 = .error →
      (DoWork cfg st p_in_buf).st.p_out_buf = none ∧
      (DoWork cfg st p_in_buf).st.spec_counter = 0 ∧
      (DoWork cfg st p_in_buf).out = none) ∧
    (Flush st).p_out_buf = none ∧ (Flush st).spec_counter = 0 ∧
    Flush (Flush st) = Flush st ∧
    (DoWork cfg st p_in_buf).input_released = true := by
  refine ⟨?_, rfl, rfl, rfl, ?_⟩
  · intro herr
    simp [DoWork, herr, Flush]
  · rcases hr : (dispatch cfg st p_in_buf).2 <;> simp [DoWork, hr]

/-- Witness for C7: evaluated on a fresh TrueHD session fed the oversized
frame `blkErr` (whose slot padding would be negative, an unrecoverable
error). -/
theorem claim_C7_witness :
    ((DoWork cfgTHD freshState blkErr).st.p_out_buf = none ∧
      (DoWork cfgTHD freshState blkErr).st.spec_counter = 0 ∧
      (DoWork cfgTHD freshState blkErr).out = none) ∧
    Flush (Flush freshState) = Flush freshState ∧
    (DoWork cfgTHD freshState blkErr).input_released = true :=
  ⟨(claim_C7 cfgTHD freshState blkErr).1 (by decide),
    (claim_C7 cfgTHD freshState blkErr).2.2.2.1,
    (claim_C7 cfgTHD freshState blkErr).2.2.2.2⟩

/-! ### Characterization of the composite writer operations -/

theorem write_16_hi' (cfg : Cfg) (f : Nat → Nat) (pos v j : Nat) (h : j = pos) :
    write_16 cfg f pos v j =
      (if b_output_big_endian cfg = true then v % 65536 / 256 else v % 256) := by
  subst h
  exact write_16_hi cfg f j v

theorem write_16_lo' (cfg : Cfg) (f : Nat → Nat) (pos v j : Nat) (h : j = pos + 1) :
    write_16 cfg f pos v j =
      (if b_output_big_endian cfg = true then v % 256 else v % 65536 / 256) := by
  subst h
  exact write_16_lo cfg f pos v

theorem write_buffer_some (cfg : Cfg) (st : filter_sys_t) (ob : out_block_t)
    (hob : st.p_out_buf = some ob) (b : block_t)
    (hbuf : b.i_buffer ≤ b.p_buffer.length) :
    ∃ ob2, (write_buffer cfg st b).p_out_buf = some ob2 ∧
      ob2.i_buffer = ob.i_buffer ∧
      (write_buffer cfg st b).i_out_offset = st.i_out_offset + b.i_buffer + b.i_buffer % 2 ∧
      (write_buffer cfg st b).spec_counter = st.spec_counter ∧
      (∀ j, j < st.i_out_offset → ob2.data j = ob.data j) ∧
      (b.i_buffer % 2 = 0 → ∀ j, j < b.i_buffer →
        ob2.data (st.i_out_offset + j) =
          (b.p_buffer.take b.i_buffer).getD
            (j ^^^ swapN (is_big_endian cfg b) (b_output_big_endian cfg)) 0) := by
  have hlen : (b.p_buffer.take b.i_buffer).length = b.i_buffer := by
    simp [List.length_take, Nat.min_eq_left hbuf]
  by_cases hpar : b.i_buffer % 2 = 0
  · have h2 : (b.p_buffer.take b.i_buffer).length % 2 = 0 := by rw [hlen]; exact hpar
    rw [write_buffer, write_data_even cfg st ob hob _ _ h2]
    refine ⟨_, rfl, rfl, by simp only [hlen]; omega, rfl, ?_, ?_⟩
    · intro j hj
      simp only
      exact writeRegion_lt _ _ _ _ _ hj
    · intro _ j hj
      simp only
      rw [writeRegion_in _ _ _ _ _ (by omega) (by rw [hlen]; omega),
        Nat.add_sub_cancel_left]
  · have hpar1 : b.i_buffer % 2 = 1 := by omega
    have h2 : (b.p_buffer.take b.i_buffer).length % 2 = 1 := by rw [hlen]; exact hpar1
    rw [write_buffer, write_data_odd cfg st ob hob _ _ h2]
    refine ⟨_, rfl, rfl, by simp only [hlen]; omega, rfl, ?_, ?_⟩
    · intro j hj
      simp only [hlen]
      rw [write_16_lt _ _ _ _ _ (by omega)]
      exact writeRegion_lt _ _ _ _ _ hj
    · intro hcon
      omega

theorem spdif_hdr_ge (cfg : Cfg) (f : Nat → Nat) (dt len j : Nat) (h : 8 ≤ j) :
    write_16 cfg (write_16 cfg (write_16 cfg (write_16 cfg f 0 0xf872) 2 0x4e1f) 4 dt)
      6 len j = f j := by
  rw [write_16_ge _ _ _ _ _ (by omega), write_16_ge _ _ _ _ _ (by omega),
    write_16_ge _ _ _ _ _ (by omega), write_16_ge _ _ _ _ _ (by omega)]

theorem spdif_hdr_byte (cfg : Cfg) (f : Nat → Nat) (dt len j : Nat) (hj : j < 8) :
    write_16 cfg (write_16 cfg (write_16 cfg (write_16 cfg f 0 0xf872) 2 0x4e1f) 4 dt)
      6 len j =
      (if b_output_big_endian cfg = true then
        [0xF8, 0x72, 0x4E, 0x1F, dt % 65536 / 256, dt % 256,
          len % 65536 / 256, len % 256].getD j 0
      else
        [0x72, 0xF8, 0x1F, 0x4E, dt % 256, dt % 65536 / 256,
          len % 256, len % 65536 / 256].getD j 0) := by
  interval_cases j
  · rw [write_16_lt _ _ _ _ _ (by norm_num), write_16_lt _ _ _ _ _ (by norm_num),
      write_16_lt _ _ _ _ _ (by norm_num), write_16_hi' _ _ _ _ _ rfl]
    split <;> norm_num
  · rw [write_16_lt _ _ _ _ _ (by norm_num), write_16_lt _ _ _ _ _ (by norm_num),
      write_16_lt _ _ _ _ _ (by norm_num), write_16_lo' _ _ _ _ _ rfl]
    split <;> norm_num
  · rw [write_16_lt _ _ _ _ _ (by norm_num), write_16_lt _ _ _ _ _ (by norm_num),
      write_16_hi' _ _ _ _ _ rfl]
    split <;> norm_num
  · rw [write_16_lt _ _ _ _ _ (by norm_num), write_16_lt _ _ _ _ _ (by norm_num),
      write_16_lo' _ _ _ _ _ rfl]
    split <;> norm_num
  · rw [write_16_lt _ _ _ _ _ (by norm_num), write_16_hi' _ _ _ _ _ rfl]
    split <;> simp
  · rw [write_16_lt _ _ _ _ _ (by norm_num), write_16_lo' _ _ _ _ _ rfl]
    split <;> simp
  · rw [write_16_hi' _ _ _ _ _ rfl]
    split <;> simp
  · rw [write_16_lo' _ _ _ _ _ rfl]
    split <;> simp

theorem writeRegion_zero (f : Nat → Nat) (off : Nat) (g : Nat → Nat) :
    writeRegion f off 0 g = f := by
  funext j
  simp only [writeRegion]
  rw [if_neg (by omega)]

theorem write_finalize_eq (cfg : Cfg) (ob : out_block_t) (off sc dt mul : Nat)
    (hdt : dt ≠ 0) :
    write_finalize cfg ⟨some ob, off, sc⟩ dt mul =
      ⟨some { ob with data := (writeRegion
          (write_16 cfg (write_16 cfg (write_16 cfg (write_16 cfg ob.data 0 0xf872)
            2 0x4e1f) 4 dt) 6 ((off - SPDIF_HEADER_SIZE) * mul))
          off (ob.i_buffer - off) (fun _ => 0)) },
        off + (ob.i_buffer - off), sc⟩ := by
  simp only [write_finalize]
  rw [if_pos hdt]
  by_cases hlt : off < ob.i_buffer
  · rw [if_pos hlt]
    simp only [write_padding]
  · rw [if_neg hlt]
    have h0 : ob.i_buffer - off = 0 := by omega
    rw [h0, writeRegion_zero, Nat.add_zero]

theorem write_finalize_facts (cfg : Cfg) (ob : out_block_t) (off sc dt mul : Nat)
    (hdt : dt ≠ 0) (hoff8 : 8 ≤ off) (hoff : off ≤ ob.i_buffer) :
    ∃ ob3, write_finalize cfg ⟨some ob, off, sc⟩ dt mul = ⟨some ob3, ob.i_buffer, sc⟩ ∧
      ob3.i_buffer = ob.i_buffer ∧ ob3.i_length = ob.i_length ∧
      (∀ j, 8 ≤ j → j < off → ob3.data j = ob.data j) ∧
      (∀ j, j < 8 → ob3.data j =
        (if b_output_big_endian cfg = true then
          [0xF8, 0x72, 0x4E, 0x1F, dt % 65536 / 256, dt % 256,
            ((off - SPDIF_HEADER_SIZE) * mul) % 65536 / 256,
            ((off - SPDIF_HEADER_SIZE) * mul) % 256].getD j 0
        else
          [0x72, 0xF8, 0x1F, 0x4E, dt % 256, dt % 65536 / 256,
            ((off - SPDIF_HEADER_SIZE) * mul) % 256,
            ((off - SPDIF_HEADER_SIZE) * mul) % 65536 / 256].getD j 0)) := by
  refine ⟨{ ob with data := (writeRegion
      (write_16 cfg (write_16 cfg (write_16 cfg (write_16 cfg ob.data 0 0xf872)
        2 0x4e1f) 4 dt) 6 ((off - SPDIF_HEADER_SIZE) * mul))
      off (ob.i_buffer - off) (fun _ => 0)) }, ?_, rfl, rfl, ?_, ?_⟩
  · rw [write_finalize_eq cfg ob off sc dt mul hdt]
    have h : off + (ob.i_buffer - off) = ob.i_buffer := by omega
    rw [h]
  · intro j h8 hj
    simp only
    rw [writeRegion_lt _ _ _ _ _ hj]
    exact spdif_hdr_ge cfg ob.data dt _ j h8
  · intro j hj
    simp only
    rw [writeRegion_lt _ _ _ _ _ (by omega)]
    exact spdif_hdr_byte cfg ob.data dt _ j hj

theorem DoWork_success (cfg : Cfg) (st : filter_sys_t) (p : block_t)
    (st1 : filter_sys_t) (h : dispatch cfg st p = (st1, .success)) :
    DoWork cfg st p = ⟨{ st1 with p_out_buf := none }, st1.p_out_buf, .success, true⟩ := by
  simp [DoWork, h]

theorem DoWork_more_data (cfg : Cfg) (st : filter_sys_t) (p : block_t)
    (st1 : filter_sys_t) (h : dispatch cfg st p = (st1, .more_data)) :
    DoWork cfg st p = ⟨st1, none, .more_data, true⟩ := by
  simp [DoWork, h]

theorem DoWork_error (cfg : Cfg) (st : filter_sys_t) (p : block_t)
    (st1 : filter_sys_t) (h : dispatch cfg st p = (st1, .error)) :
    DoWork cfg st p = ⟨Flush st1, none, .error, true⟩ := by
  simp [DoWork, h]

/-! ### Claim C6 -/

theorem or_shl_ne_zero (x : Nat) : (IEC61937_AC3 ||| x) ≠ 0 := by
  intro h
  have h1 : (IEC61937_AC3 ||| x).testBit 0 = true := by
    simp [Nat.testBit_or, IEC61937_AC3]
  rw [h] at h1
  simp at h1

/-- C6: for every valid AC-3 input frame — between 6 and 3840 bytes (3840
is the maximum size of an AC-3 sync frame) with the correct sample count
1536 — one `DoWork` call produces exactly one complete output packet of
the fixed size `A52_FRAME_NB * 4 = 6144` bytes whose first two 16-bit
words are 0xF872 and 0x4E1F in the selected output byte order. -/
theorem claim_C6 (cfg : Cfg) (hin : cfg.fmt_in = .a52) (st : filter_sys_t)
    (hst : st.p_out_buf = none) (p : block_t)
    (h6 : 6 ≤ p.i_buffer) (hmax : p.i_buffer ≤ 3840)
    (hsamp : p.i_nb_samples = A52_FRAME_NB)
    (hbuf : p.i_buffer ≤ p.p_buffer.length) :
    ∃ pkt, (DoWork cfg st p).ret = .success ∧
      (DoWork cfg st p).out = some pkt ∧
      (DoWork cfg st p).st.p_out_buf = none ∧
      pkt.i_buffer = A52_FRAME_NB * 4 ∧
      pkt.data 0 = (if b_output_big_endian cfg = true then 0xF8 else 0x72) ∧
      pkt.data 1 = (if b_output_big_endian cfg = true then 0x72 else 0xF8) ∧
      pkt.data 2 = (if b_output_big_endian cfg = true then 0x4E else 0x1F) ∧
      pkt.data 3 = (if b_output_big_endian cfg = true then 0x1F else 0x4E) := by
  have hA4 : A52_FRAME_NB * 4 = 6144 := rfl
  have hSH : SPDIF_HEADER_SIZE = 8 := rfl
  have hnp : ¬(p.i_buffer < 6 ∨ p.i_buffer > A52_FRAME_NB * 4 ∨
      p.i_nb_samples ≠ A52_FRAME_NB) := by
    push_neg
    exact ⟨by omega, by omega, hsamp⟩
  have hguard : ¬(p.i_buffer + SPDIF_HEADER_SIZE > A52_FRAME_NB * 4) := by omega
  have hac3 : write_buffer_ac3 cfg st p =
      (write_finalize cfg
        (write_buffer cfg (write_init cfg st p (A52_FRAME_NB * 4) A52_FRAME_NB) p)
        (IEC61937_AC3 ||| ((p.p_buffer.getD 5 0 &&& 0x7) <<< 8)) 8, .success) := by
    simp only [write_buffer_ac3, if_neg hnp, if_neg hguard]
  obtain ⟨ob2, hb1, hb2, hb3, hb4, hb5, hb6⟩ :=
    write_buffer_some cfg (write_init cfg st p (A52_FRAME_NB * 4) A52_FRAME_NB)
      _ rfl p hbuf
  have hinit_off :
      (write_init cfg st p (A52_FRAME_NB * 4) A52_FRAME_NB).i_out_offset = 8 := rfl
  have hob2 : ob2.i_buffer = 6144 := by rw [hb2]; rfl
  have hsteq : write_buffer cfg (write_init cfg st p (A52_FRAME_NB * 4) A52_FRAME_NB) p =
      (⟨some ob2,
        (write_buffer cfg (write_init cfg st p (A52_FRAME_NB * 4) A52_FRAME_NB) p).i_out_offset,
        (write_buffer cfg (write_init cfg st p (A52_FRAME_NB * 4) A52_FRAME_NB) p).spec_counter⟩ :
        filter_sys_t) := by
    rw [← hb1]
  rw [hsteq] at hac3
  obtain ⟨ob3, hf1, hf2, hf3, hf4, hf5⟩ :=
    write_finalize_facts cfg ob2
      (write_buffer cfg (write_init cfg st p (A52_FRAME_NB * 4) A52_FRAME_NB) p).i_out_offset
      (write_buffer cfg (write_init cfg st p (A52_FRAME_NB * 4) A52_FRAME_NB) p).spec_counter
      (IEC61937_AC3 ||| ((p.p_buffer.getD 5 0 &&& 0x7) <<< 8)) 8
      (or_shl_ne_zero _) (by omega) (by omega)
  rw [hf1] at hac3
  have hdisp : dispatch cfg st p =
      (⟨some ob3, ob2.i_buffer,
        (write_buffer cfg (write_init cfg st p (A52_FRAME_NB * 4) A52_FRAME_NB) p).spec_counter⟩,
        .success) := by
    simp [dispatch, hin, hac3]
  have hdw := DoWork_success cfg st p _ hdisp
  refine ⟨ob3, ?_, ?_, ?_, ?_, ?_, ?_, ?_, ?_⟩
  · rw [hdw]
  · rw [hdw]
  · rw [hdw]
  · rw [hf2, hob2, hA4]
  · rw [hf5 0 (by norm_num)]
    split <;> rfl
  · rw [hf5 1 (by norm_num)]
    split <;> rfl
  · rw [hf5 2 (by norm_num)]
    split <;> rfl
  · rw [hf5 3 (by norm_num)]
    split <;> rfl

/-- Witness for C6: the concrete six-byte AC-3 frame `blkA52` through a
fresh big-endian-output session. -/
theorem claim_C6_witness :
    ∃ pkt, (DoWork cfgA52 freshState blkA52).ret = .success ∧
      (DoWork cfgA52 freshState blkA52).out = some pkt ∧
      (DoWork cfgA52 freshState blkA52).st.p_out_buf = none ∧
      pkt.i_buffer = A52_FRAME_NB * 4 ∧
      pkt.data 0 = (if b_output_big_endian cfgA52 = true then 0xF8 else 0x72) ∧
      pkt.data 1 = (if b_output_big_endian cfgA52 = true then 0x72 else 0xF8) ∧
      pkt.data 2 = (if b_output_big_endian cfgA52 = true then 0x4E else 0x1F) ∧
      pkt.data 3 = (if b_output_big_endian cfgA52 = true then 0x1F else 0x4E) :=
  claim_C6 cfgA52 rfl freshState rfl blkA52 (by decide) (by decide) (by decide) (by decide)

/-! ### Claim C5 -/

theorem write_finalize_zero_full (cfg : Cfg) (ob : out_block_t) (off sc mul : Nat)
    (hoff : off = ob.i_buffer) :
    write_finalize cfg ⟨some ob, off, sc⟩ 0 mul = ⟨some ob, off, sc⟩ := by
  simp only [write_finalize]
  rw [if_neg (show ¬((0:Nat) ≠ 0) by simp)]
  rw [if_neg (show ¬(off < ob.i_buffer) by omega)]

theorem dts_reduce_unsupported (cfg : Cfg) (st : filter_sys_t) (p : block_t)
    (hpre : p.i_nb_samples ≠ 0)
    (h512 : p.i_nb_samples ≠ 512) (h1024 : p.i_nb_samples ≠ 1024)
    (h2048 : p.i_nb_samples ≠ 2048) :
    write_buffer_dts cfg st p = (st, .error) := by
  simp only [write_buffer_dts, if_neg hpre, if_neg h512, if_neg h1024, if_neg h2048]

theorem dts_reduce_exact (cfg : Cfg) (st : filter_sys_t) (p : block_t)
    (hpre : p.i_nb_samples ≠ 0)
    (hs : p.i_nb_samples = 512 ∨ p.i_nb_samples = 1024 ∨ p.i_nb_samples = 2048)
    (heq : p.i_buffer = p.i_nb_samples * 4) :
    write_buffer_dts cfg st p =
      (write_finalize cfg
        (write_buffer cfg
          { write_init cfg st p (p.i_nb_samples * 4) p.i_nb_samples with i_out_offset := 0 }
          p)
        0 8, .success) := by
  have hSH : SPDIF_HEADER_SIZE = 8 := rfl
  rcases hs with hs | hs | hs <;>
    (rw [hs] at hpre heq ⊢
     norm_num at heq
     simp [write_buffer_dts, write_init, hpre, hs, heq])

theorem dts_reduce_overflow (cfg : Cfg) (st : filter_sys_t) (p : block_t)
    (hpre : p.i_nb_samples ≠ 0)
    (hs : p.i_nb_samples = 512 ∨ p.i_nb_samples = 1024 ∨ p.i_nb_samples = 2048)
    (hne : p.i_buffer ≠ p.i_nb_samples * 4)
    (hover : p.i_buffer + SPDIF_HEADER_SIZE > p.i_nb_samples * 4) :
    write_buffer_dts cfg st p = (st, .error) := by
  have hSH : SPDIF_HEADER_SIZE = 8 := rfl
  rcases hs with hs | hs | hs <;>
    (rw [hs] at hpre hne hover
     rw [hSH] at hover
     norm_num at hne hover
     simp [write_buffer_dts, write_init, hpre, hs, hne, hSH, hover])

theorem dts_reduce_header (cfg : Cfg) (st : filter_sys_t) (p : block_t) (dt0 : Nat)
    (hpre : p.i_nb_samples ≠ 0)
    (hpair : (p.i_nb_samples = 512 ∧ dt0 = IEC61937_DTS1) ∨
      (p.i_nb_samples = 1024 ∧ dt0 = IEC61937_DTS2) ∨
      (p.i_nb_samples = 2048 ∧ dt0 = IEC61937_DTS3))
    (hne : p.i_buffer ≠ p.i_nb_samples * 4)
    (hfit : p.i_buffer + SPDIF_HEADER_SIZE ≤ p.i_nb_samples * 4) :
    write_buffer_dts cfg st p =
      (write_finalize cfg
        (write_buffer cfg (write_init cfg st p (p.i_nb_samples * 4) p.i_nb_samples) p)
        dt0 8, .success) := by
  have hSH : SPDIF_HEADER_SIZE = 8 := rfl
  rcases hpair with ⟨hs, hd⟩ | ⟨hs, hd⟩ | ⟨hs, hd⟩ <;>
    (subst hd
     rw [hs] at hpre hne hfit ⊢
     rw [hSH] at hfit
     norm_num at hne hfit
     simp [write_buffer_dts, write_init, hpre, hs, hne, hSH,
       IEC61937_DTS1, IEC61937_DTS2, IEC61937_DTS3, Nat.not_lt.mpr hfit])

/-- C5: in the DTS strategy (for pre-tagged frames), sample counts 512,
1024 and 2048 map to data-type codes 0x0B, 0x0C and 0x0D (visible in header
bytes 4 and 5 of the emitted packet, in output byte order); any other
sample count is an unsupported-frame-size error with no packet; when the
payload size equals samples×4 exactly, the emitted packet holds the raw
(byte-order-adjusted) payload starting at byte 0 with no burst header; and
when payload plus the 8-byte header would overflow samples×4, the call
errors with no packet. -/
theorem claim_C5 (cfg : Cfg) (hin : cfg.fmt_in = .dts) (st : filter_sys_t)
    (hst : st.p_out_buf = none) (p : block_t)
    (hpre : p.i_nb_samples ≠ 0) (hbuf : p.i_buffer ≤ p.p_buffer.length) :
    (p.i_nb_samples ≠ 512 → p.i_nb_samples ≠ 1024 → p.i_nb_samples ≠ 2048 →
      (DoWork cfg st p).ret = .error ∧ (DoWork cfg st p).out = none) ∧
    ((p.i_nb_samples = 512 ∨ p.i_nb_samples = 1024 ∨ p.i_nb_samples = 2048) →
      p.i_buffer = p.i_nb_samples * 4 →
      (DoWork cfg st p).ret = .success ∧
      (∃ pkt, (DoWork cfg st p).out = some pkt ∧ pkt.i_buffer = p.i_nb_samples * 4 ∧
        (∀ j, j < p.i_buffer → pkt.data j =
          (p.p_buffer.take p.i_buffer).getD
            (j ^^^ swapN (is_big_endian cfg p) (b_output_big_endian cfg)) 0))) ∧
    ((p.i_nb_samples = 512 ∨ p.i_nb_samples = 1024 ∨ p.i_nb_samples = 2048) →
      p.i_buffer ≠ p.i_nb_samples * 4 →
      p.i_buffer + SPDIF_HEADER_SIZE > p.i_nb_samples * 4 →
      (DoWork cfg st p).ret = .error ∧ (DoWork cfg st p).out = none) ∧
    (∀ s dt0, ((s = 512 ∧ dt0 = IEC61937_DTS1) ∨ (s = 1024 ∧ dt0 = IEC61937_DTS2) ∨
        (s = 2048 ∧ dt0 = IEC61937_DTS3)) →
      p.i_nb_samples = s → p.i_buffer ≠ s * 4 →
      p.i_buffer + SPDIF_HEADER_SIZE ≤ s * 4 →
      (DoWork cfg st p).ret = .success ∧
      (∃ pkt, (DoWork cfg st p).out = some pkt ∧ pkt.i_buffer = s * 4 ∧
        pkt.data 4 = (if b_output_big_endian cfg = true then 0x00 else dt0) ∧
        pkt.data 5 = (if b_output_big_endian cfg = true then dt0 else 0x00))) := by
  have hSH : SPDIF_HEADER_SIZE = 8 := rfl
  have hdisp : dispatch cfg st p = write_buffer_dts cfg st p := by
    simp [dispatch, hin]
  refine ⟨?_, ?_, ?_, ?_⟩
  · intro h1 h2 h3
    have hdw := DoWork_error cfg st p st
      (hdisp.trans (dts_reduce_unsupported cfg st p hpre h1 h2 h3))
    rw [hdw]
    exact ⟨rfl, rfl⟩
  · intro hsam heq
    have hred := dts_reduce_exact cfg st p hpre hsam heq
    obtain ⟨ob2, hb1, hb2, hb3, hb4, hb5, hb6⟩ :=
      write_buffer_some cfg
        { write_init cfg st p (p.i_nb_samples * 4) p.i_nb_samples with i_out_offset := 0 }
        _ rfl p hbuf
    have heven : p.i_buffer % 2 = 0 := by omega
    have h0 : ({ write_init cfg st p (p.i_nb_samples * 4) p.i_nb_samples with
        i_out_offset := 0 } : filter_sys_t).i_out_offset = 0 := rfl
    have hob2 : ob2.i_buffer = p.i_nb_samples * 4 := by rw [hb2]
    have hsteq : write_buffer cfg
        { write_init cfg st p (p.i_nb_samples * 4) p.i_nb_samples with i_out_offset := 0 } p =
        (⟨some ob2,
          (write_buffer cfg
            { write_init cfg st p (p.i_nb_samples * 4) p.i_nb_samples with i_out_offset := 0 }
            p).i_out_offset,
          (write_buffer cfg
            { write_init cfg st p (p.i_nb_samples * 4) p.i_nb_samples with i_out_offset := 0 }
            p).spec_counter⟩ : filter_sys_t) := by
      rw [← hb1]
    rw [hsteq] at hred
    have hfo : (write_buffer cfg
        { write_init cfg st p (p.i_nb_samples * 4) p.i_nb_samples with i_out_offset := 0 }
        p).i_out_offset = ob2.i_buffer := by omega
    rw [write_finalize_zero_full cfg ob2 _ _ 8 hfo] at hred
    have hdw := DoWork_success cfg st p _ (hdisp.trans hred)
    refine ⟨by rw [hdw], ob2, by rw [hdw], hob2, ?_⟩
    intro j hj
    simpa using hb6 heven j hj
  · intro hsam hne hover
    have hdw := DoWork_error cfg st p st
      (hdisp.trans (dts_reduce_overflow cfg st p hpre hsam hne hover))
    rw [hdw]
    exact ⟨rfl, rfl⟩
  · intro s dt0 hpair hs hne hfit
    subst hs
    have hred := dts_reduce_header cfg st p dt0 hpre hpair hne hfit
    obtain ⟨ob2, hb1, hb2, hb3, hb4, hb5, hb6⟩ :=
      write_buffer_some cfg (write_init cfg st p (p.i_nb_samples * 4) p.i_nb_samples)
        _ rfl p hbuf
    have h8 : (write_init cfg st p (p.i_nb_samples * 4) p.i_nb_samples).i_out_offset = 8 :=
      rfl
    have hob2 : ob2.i_buffer = p.i_nb_samples * 4 := by rw [hb2]
    have hsteq : write_buffer cfg
        (write_init cfg st p (p.i_nb_samples * 4) p.i_nb_samples) p =
        (⟨some ob2,
          (write_buffer cfg (write_init cfg st p (p.i_nb_samples * 4) p.i_nb_samples)
            p).i_out_offset,
          (write_buffer cfg (write_init cfg st p (p.i_nb_samples * 4) p.i_nb_samples)
            p).spec_counter⟩ : filter_sys_t) := by
      rw [← hb1]
    rw [hsteq] at hred
    have hdt0 : dt0 ≠ 0 := by
      rcases hpair with ⟨_, hd⟩ | ⟨_, hd⟩ | ⟨_, hd⟩ <;> (subst hd; decide)
    obtain ⟨ob3, hf1, hf2, hf3, hf4, hf5⟩ :=
      write_finalize_facts cfg ob2
        (write_buffer cfg (write_init cfg st p (p.i_nb_samples * 4) p.i_nb_samples)
          p).i_out_offset
        (write_buffer cfg (write_init cfg st p (p.i_nb_samples * 4) p.i_nb_samples)
          p).spec_counter
        dt0 8 hdt0 (by omega) (by omega)
    rw [hf1] at hred
    have hdw := DoWork_success cfg st p _ (hdisp.trans hred)
    refine ⟨by rw [hdw], ob3, by rw [hdw], by rw [hf2, hob2], ?_, ?_⟩
    · rw [hf5 4 (by norm_num)]
      rcases hpair with ⟨_, hd⟩ | ⟨_, hd⟩ | ⟨_, hd⟩ <;> subst hd <;>
        (split <;> norm_num [IEC61937_DTS1, IEC61937_DTS2, IEC61937_DTS3, List.getD])
    · rw [hf5 5 (by norm_num)]
      rcases hpair with ⟨_, hd⟩ | ⟨_, hd⟩ | ⟨_, hd⟩ <;> subst hd <;>
        (split <;> norm_num [IEC61937_DTS1, IEC61937_DTS2, IEC61937_DTS3, List.getD])

/-- Witness for C5: the pre-tagged 512-sample, 16-byte DTS frame `blkDTS`
through a fresh big-endian-output session emits a packet whose burst
header carries the data-type code 0x0B. -/
theorem claim_C5_witness :
    (DoWork cfgDTS freshState blkDTS).ret = .success ∧
    (∃ pkt, (DoWork cfgDTS freshState blkDTS).out = some pkt ∧
      pkt.i_buffer = 512 * 4 ∧
      pkt.data 4 = (if b_output_big_endian cfgDTS = true then 0x00 else 0x0B) ∧
      pkt.data 5 = (if b_output_big_endian cfgDTS = true then 0x0B else 0x00)) :=
  (claim_C5 cfgDTS rfl freshState rfl blkDTS (by decide) (by decide)).2.2.2
    512 0x0B (Or.inl ⟨rfl, rfl⟩) rfl (by decide) (by decide)

/-! ### E-AC-3 reduction lemmas -/

theorem eac3_reduce (cfg : Cfg) (st : filter_sys_t) (p : block_t)
    (a52 : vlc_a52_header_t)
    (hparse : cfg.a52_parse (p.p_buffer.take p.i_buffer) = some a52)
    (hsize : a52.i_size ≤ p.i_buffer)
    (hstok : eac3_state_ok st) (hfits : eac3_fits st a52.i_size) :
    write_buffer_eac3 cfg st p =
      eac3_tail cfg
        (write_buffer cfg
          (if st.p_out_buf.isNone then
            write_init cfg st
              { p with i_buffer := a52.i_size, i_nb_samples := a52.i_samples }
              (AOUT_SPDIF_SIZE * 4) AOUT_SPDIF_SIZE
          else st)
          { p with i_buffer := a52.i_size, i_nb_samples := a52.i_samples })
        a52 := by
  have hSH : SPDIF_HEADER_SIZE = 8 := rfl
  have hAS : AOUT_SPDIF_SIZE = 6144 := rfl
  rcases hpo : st.p_out_buf with _ | ob
  · simp only [eac3_fits, hpo] at hfits
    simp only [write_buffer_eac3, hparse, if_neg (not_lt.mpr hsize), hpo,
      Option.isNone_none, if_true, write_init]
    rw [if_neg (show ¬(AOUT_SPDIF_SIZE * 4 - SPDIF_HEADER_SIZE < a52.i_size) by omega)]
  · simp only [eac3_fits, hpo] at hfits
    simp only [write_buffer_eac3, hparse, if_neg (not_lt.mpr hsize), hpo,
      Option.isNone_some, Bool.false_eq_true, if_false]
    rw [if_neg (not_lt.mpr hfits)]

theorem eac3_reduce_nofit (cfg : Cfg) (st : filter_sys_t) (p : block_t)
    (a52 : vlc_a52_header_t)
    (hparse : cfg.a52_parse (p.p_buffer.take p.i_buffer) = some a52)
    (hsize : a52.i_size ≤ p.i_buffer)
    (hnofit : ¬ eac3_fits st a52.i_size) :
    (write_buffer_eac3 cfg st p).2 = .error := by
  have hSH : SPDIF_HEADER_SIZE = 8 := rfl
  have hAS : AOUT_SPDIF_SIZE = 6144 := rfl
  rcases hpo : st.p_out_buf with _ | ob
  · simp only [eac3_fits, hpo] at hnofit
    simp only [write_buffer_eac3, hparse, if_neg (not_lt.mpr hsize), hpo,
      Option.isNone_none, if_true, write_init]
    rw [if_pos (show AOUT_SPDIF_SIZE * 4 - SPDIF_HEADER_SIZE < a52.i_size by omega)]
  · simp only [eac3_fits, hpo] at hnofit
    simp only [write_buffer_eac3, hparse, if_neg (not_lt.mpr hsize), hpo,
      Option.isNone_some, Bool.false_eq_true, if_false]
    rw [if_pos (not_le.mp hnofit)]

theorem eac3_tail_accum_more_sid0 (cfg : Cfg) (st1 : filter_sys_t)
    (a52 : vlc_a52_header_t) (heac3 : a52.b_eac3 = true)
    (hstrm : a52.strmtyp = .independent ∨ a52.strmtyp = .ac3_convert)
    (hbl : a52.i_blocks_per_sync_frame ≠ 6)
    (hsid : a52.i_substreamid = 0)
    (hne6 : st1.spec_counter + a52.i_blocks_per_sync_frame ≠ 6) :
    eac3_tail cfg st1 a52 =
      ({ st1 with spec_counter := st1.spec_counter + a52.i_blocks_per_sync_frame },
        .more_data) := by
  simp only [eac3_tail, heac3, if_pos (And.intro hstrm hbl), hsid, reduceIte, if_true]
  rw [if_pos hne6]

theorem eac3_tail_accum_more_nsid (cfg : Cfg) (st1 : filter_sys_t)
    (a52 : vlc_a52_header_t) (heac3 : a52.b_eac3 = true)
    (hstrm : a52.strmtyp = .independent ∨ a52.strmtyp = .ac3_convert)
    (hbl : a52.i_blocks_per_sync_frame ≠ 6)
    (hsid : a52.i_substreamid ≠ 0)
    (hne6 : st1.spec_counter ≠ 6) :
    eac3_tail cfg st1 a52 = (st1, .more_data) := by
  simp only [eac3_tail, heac3, if_true, if_pos (And.intro hstrm hbl), if_neg hsid]
  rw [if_pos hne6]

theorem eac3_tail_accum_emit_sid0 (cfg : Cfg) (st1 : filter_sys_t)
    (a52 : vlc_a52_header_t) (heac3 : a52.b_eac3 = true)
    (hstrm : a52.strmtyp = .independent ∨ a52.strmtyp = .ac3_convert)
    (hbl : a52.i_blocks_per_sync_frame ≠ 6)
    (hsid : a52.i_substreamid = 0)
    (heq6 : st1.spec_counter + a52.i_blocks_per_sync_frame = 6) :
    eac3_tail cfg st1 a52 =
      (write_finalize cfg { st1 with spec_counter := 0 } IEC61937_EAC3 1, .success) := by
  simp only [eac3_tail, heac3, if_pos (And.intro hstrm hbl), hsid, reduceIte, if_true]
  rw [if_neg (show ¬(st1.spec_counter + a52.i_blocks_per_sync_frame ≠ 6) from
    not_not.mpr heq6)]

theorem eac3_tail_accum_emit_nsid (cfg : Cfg) (st1 : filter_sys_t)
    (a52 : vlc_a52_header_t) (heac3 : a52.b_eac3 = true)
    (hstrm : a52.strmtyp = .independent ∨ a52.strmtyp = .ac3_convert)
    (hbl : a52.i_blocks_per_sync_frame ≠ 6)
    (hsid : a52.i_substreamid ≠ 0)
    (heq6 : st1.spec_counter = 6) :
    eac3_tail cfg st1 a52 =
      (write_finalize cfg { st1 with spec_counter := 0 } IEC61937_EAC3 1, .success) := by
  simp only [eac3_tail, heac3, if_true, if_pos (And.intro hstrm hbl), if_neg hsid]
  rw [if_neg (show ¬(st1.spec_counter ≠ 6) from not_not.mpr heq6)]

theorem eac3_tail_imm (cfg : Cfg) (st1 : filter_sys_t) (a52 : vlc_a52_header_t)
    (heac3 : a52.b_eac3 = true)
    (hnot : ¬((a52.strmtyp = .independent ∨ a52.strmtyp = .ac3_convert) ∧
      a52.i_blocks_per_sync_frame ≠ 6)) :
    eac3_tail cfg st1 a52 =
      (write_finalize cfg st1 IEC61937_EAC3 1, .success) := by
  simp only [eac3_tail, heac3, if_true, if_neg hnot]

theorem eac3_tail_plain (cfg : Cfg) (st1 : filter_sys_t) (a52 : vlc_a52_header_t)
    (heac3 : a52.b_eac3 = false) :
    eac3_tail cfg st1 a52 = (st1, .more_data) := by
  simp only [eac3_tail, heac3, Bool.false_eq_true, if_false]

theorem eac3_append_facts (cfg : Cfg) (st : filter_sys_t) (p : block_t)
    (a52 : vlc_a52_header_t)
    (hsize : a52.i_size ≤ p.i_buffer) (hbuf : p.i_buffer ≤ p.p_buffer.length)
    (heven : a52.i_size % 2 = 0)
    (hstok : eac3_state_ok st) (hfits : eac3_fits st a52.i_size) :
    ∃ st1 ob2,
      write_buffer cfg
        (if st.p_out_buf.isNone then
          write_init cfg st
            { p with i_buffer := a52.i_size, i_nb_samples := a52.i_samples }
            (AOUT_SPDIF_SIZE * 4) AOUT_SPDIF_SIZE
        else st)
        { p with i_buffer := a52.i_size, i_nb_samples := a52.i_samples } = st1 ∧
      st1.p_out_buf = some ob2 ∧
      ob2.i_buffer = AOUT_SPDIF_SIZE * 4 ∧
      st1.spec_counter = st.spec_counter ∧
      SPDIF_HEADER_SIZE ≤ st1.i_out_offset ∧
      st1.i_out_offset ≤ AOUT_SPDIF_SIZE * 4 := by
  have hSH : SPDIF_HEADER_SIZE = 8 := rfl
  have hAS : AOUT_SPDIF_SIZE = 6144 := rfl
  have hbuf2 : ({ p with i_buffer := a52.i_size, i_nb_samples := a52.i_samples } :
      block_t).i_buffer ≤
      ({ p with i_buffer := a52.i_size, i_nb_samples := a52.i_samples } :
        block_t).p_buffer.length := by
    show a52.i_size ≤ p.p_buffer.length
    omega
  rcases hpo : st.p_out_buf with _ | ob
  · simp only [eac3_fits, hpo] at hfits
    simp only [hpo, Option.isNone_none, if_true]
    obtain ⟨ob2, hb1, hb2, hb3, hb4, hb5, hb6⟩ :=
      write_buffer_some cfg
        (write_init cfg st { p with i_buffer := a52.i_size, i_nb_samples := a52.i_samples }
          (AOUT_SPDIF_SIZE * 4) AOUT_SPDIF_SIZE)
        _ rfl _ hbuf2
    have hoffi : (write_init cfg st
        { p with i_buffer := a52.i_size, i_nb_samples := a52.i_samples }
        (AOUT_SPDIF_SIZE * 4) AOUT_SPDIF_SIZE).i_out_offset = 8 := rfl
    have hsci : (write_init cfg st
        { p with i_buffer := a52.i_size, i_nb_samples := a52.i_samples }
        (AOUT_SPDIF_SIZE * 4) AOUT_SPDIF_SIZE).spec_counter = st.spec_counter := rfl
    have hib : ({ p with i_buffer := a52.i_size, i_nb_samples := a52.i_samples } :
        block_t).i_buffer = a52.i_size := rfl
    refine ⟨_, ob2, rfl, hb1, by rw [hb2], by rw [hb4, hsci], ?_, ?_⟩
    · rw [hb3, hib]
      omega
    · rw [hb3, hib]
      omega
  · simp only [eac3_fits, hpo] at hfits
    simp only [eac3_state_ok, hpo] at hstok
    simp only [hpo, Option.isNone_some, Bool.false_eq_true, if_false]
    obtain ⟨ob2, hb1, hb2, hb3, hb4, hb5, hb6⟩ := write_buffer_some cfg st ob hpo _ hbuf2
    have hib : ({ p with i_buffer := a52.i_size, i_nb_samples := a52.i_samples } :
        block_t).i_buffer = a52.i_size := rfl
    refine ⟨_, ob2, rfl, hb1, by rw [hb2]; exact hstok.1, hb4, ?_, ?_⟩
    · rw [hb3, hib]
      omega
    · rw [hb3, hib]
      omega

/-! ### Claim C3 -/

/-- C3: for E-AC-3 frames of stream-type independent or AC-3-convert
carrying fewer than 6 blocks per sync frame, no packet is emitted until
the accumulated block count for sub-stream id 0 reaches exactly 6; at that
point exactly one complete packet (of the fixed E-AC-3 output size) is
emitted and the counter resets to 0. -/
theorem claim_C3 (cfg : Cfg) (hin : cfg.fmt_in = .eac3) (st : filter_sys_t)
    (p : block_t) (a52 : vlc_a52_header_t)
    (hparse : cfg.a52_parse (p.p_buffer.take p.i_buffer) = some a52)
    (hsize : a52.i_size ≤ p.i_buffer) (hbuf : p.i_buffer ≤ p.p_buffer.length)
    (heven : a52.i_size % 2 = 0)
    (heac3 : a52.b_eac3 = true)
    (hstrm : a52.strmtyp = .independent ∨ a52.strmtyp = .ac3_convert)
    (hbl : a52.i_blocks_per_sync_frame < 6)
    (hstok : eac3_state_ok st) (hfits : eac3_fits st a52.i_size) :
    (st.spec_counter +
        (if a52.i_substreamid = 0 then a52.i_blocks_per_sync_frame else 0) ≠ 6 →
      (DoWork cfg st p).ret = .more_data ∧ (DoWork cfg st p).out = none ∧
      (DoWork cfg st p).st.spec_counter = st.spec_counter +
        (if a52.i_substreamid = 0 then a52.i_blocks_per_sync_frame else 0) ∧
      (DoWork cfg st p).st.p_out_buf.isSome = true) ∧
    (st.spec_counter +
        (if a52.i_substreamid = 0 then a52.i_blocks_per_sync_frame else 0) = 6 →
      (DoWork cfg st p).ret = .success ∧
      (∃ pkt, (DoWork cfg st p).out = some pkt ∧ pkt.i_buffer = AOUT_SPDIF_SIZE * 4) ∧
      (DoWork cfg st p).st.spec_counter = 0 ∧
      (DoWork cfg st p).st.p_out_buf = none) := by
  have hbl6 : a52.i_blocks_per_sync_frame ≠ 6 := by omega
  have hred := eac3_reduce cfg st p a52 hparse hsize hstok hfits
  obtain ⟨st1, ob2, hw, hpout, hob2, hsc, hoff8, hoffle⟩ :=
    eac3_append_facts cfg st p a52 hsize hbuf heven hstok hfits
  rw [hw] at hred
  have hdisp : dispatch cfg st p = write_buffer_eac3 cfg st p := by
    simp [dispatch, hin]
  constructor
  · intro hne6
    by_cases hsid : a52.i_substreamid = 0
    · rw [eac3_tail_accum_more_sid0 cfg st1 a52 heac3 hstrm hbl6 hsid
        (by rw [hsc]; simpa [hsid] using hne6)] at hred
      have hdw := DoWork_more_data cfg st p _ (hdisp.trans hred)
      rw [hdw]
      refine ⟨rfl, rfl, ?_, ?_⟩
      · simp [hsid, hsc]
      · simp [hpout]
    · rw [eac3_tail_accum_more_nsid cfg st1 a52 heac3 hstrm hbl6 hsid
        (by rw [hsc]; simpa [hsid] using hne6)] at hred
      have hdw := DoWork_more_data cfg st p _ (hdisp.trans hred)
      rw [hdw]
      refine ⟨rfl, rfl, ?_, ?_⟩
      · simp [hsid, hsc]
      · simp [hpout]
  · intro heq6
    have hsteq : ({ st1 with spec_counter := 0 } : filter_sys_t) =
        (⟨some ob2, st1.i_out_offset, 0⟩ : filter_sys_t) := by
      rw [← hpout]
    obtain ⟨ob3, hf1, hf2, hf3, hf4, hf5⟩ :=
      write_finalize_facts cfg ob2 st1.i_out_offset 0 IEC61937_EAC3 1
        (by decide) hoff8 (by omega)
    by_cases hsid : a52.i_substreamid = 0
    · rw [eac3_tail_accum_emit_sid0 cfg st1 a52 heac3 hstrm hbl6 hsid
        (by rw [hsc]; simpa [hsid] using heq6), hsteq, hf1] at hred
      have hdw := DoWork_success cfg st p _ (hdisp.trans hred)
      rw [hdw]
      exact ⟨rfl, ⟨ob3, rfl, by rw [hf2, hob2]⟩, rfl, rfl⟩
    · rw [eac3_tail_accum_emit_nsid cfg st1 a52 heac3 hstrm hbl6 hsid
        (by rw [hsc]; simpa [hsid] using heq6), hsteq, hf1] at hred
      have hdw := DoWork_success cfg st p _ (hdisp.trans hred)
      rw [hdw]
      exact ⟨rfl, ⟨ob3, rfl, by rw [hf2, hob2]⟩, rfl, rfl⟩

/-- Witness for C3: a 4-block independent sub-stream-0 frame against the
counter-2 state `stEAC3c2` (reaching exactly 6) and against the fresh
state (counter 4, need-more-data). -/
theorem claim_C3_witness :
    ((DoWork cfgEAC3a stEAC3c2 blkEAC3).ret = .success ∧
      (∃ pkt, (DoWork cfgEAC3a stEAC3c2 blkEAC3).out = some pkt ∧
        pkt.i_buffer = AOUT_SPDIF_SIZE * 4) ∧
      (DoWork cfgEAC3a stEAC3c2 blkEAC3).st.spec_counter = 0 ∧
      (DoWork cfgEAC3a stEAC3c2 blkEAC3).st.p_out_buf = none) ∧
    ((DoWork cfgEAC3a freshState blkEAC3).ret = .more_data ∧
      (DoWork cfgEAC3a freshState blkEAC3).out = none ∧
      (DoWork cfgEAC3a freshState blkEAC3).st.spec_counter = 0 +
        (if a52Accum.i_substreamid = 0 then a52Accum.i_blocks_per_sync_frame else 0) ∧
      (DoWork cfgEAC3a freshState blkEAC3).st.p_out_buf.isSome = true) :=
  ⟨(claim_C3 cfgEAC3a rfl stEAC3c2 blkEAC3 a52Accum rfl (by decide) (by decide)
      (by decide) rfl (Or.inl rfl) (by decide)
      ⟨rfl, by decide, by decide⟩
      (show (2:Nat) ≤ AOUT_SPDIF_SIZE * 4 - 8 by decide)).2 (by decide),
    (claim_C3 cfgEAC3a rfl freshState blkEAC3 a52Accum rfl (by decide) (by decide)
      (by decide) rfl (Or.inl rfl) (by decide)
      trivial
      (show (2:Nat) ≤ AOUT_SPDIF_SIZE * 4 - SPDIF_HEADER_SIZE by decide)).1 (by decide)⟩

/-! ### Claim C4 -/

/-- C4 (counterexample): a successfully appended frame whose parsed header
is plain AC-3 (`b_eac3 = false`) is not emitted: the call returns
need-more-data and no packet, contradicting the claim that every appended
frame outside the accumulation rule — including plain AC-3 — is finalized
and emitted immediately. -/
theorem claim_C4_counterexample :
    ((cfgEAC3p.a52_parse (blkEAC3.p_buffer.take blkEAC3.i_buffer)).map
      (fun h => h.b_eac3)) = some false ∧
    (cfgEAC3p.a52_parse (blkEAC3.p_buffer.take blkEAC3.i_buffer)).map
      (fun h => h.i_size) = some 2 ∧
    (DoWork cfgEAC3p freshState blkEAC3).ret = .more_data ∧
    (DoWork cfgEAC3p freshState blkEAC3).out.isSome = false := by
  refine ⟨rfl, rfl, by decide, by decide⟩

/-- C4 (amended): every successfully appended E-AC-3 frame
(`b_eac3 = true`) that does not fall under the accumulation rule is
finalized and emitted as a complete packet immediately after being
appended; a frame whose parsed header is plain AC-3 is only appended and
returns need-more-data (it never emits by itself). -/
theorem claim_C4 (cfg : Cfg) (hin : cfg.fmt_in = .eac3) (st : filter_sys_t)
    (p : block_t) (a52 : vlc_a52_header_t)
    (hparse : cfg.a52_parse (p.p_buffer.take p.i_buffer) = some a52)
    (hsize : a52.i_size ≤ p.i_buffer) (hbuf : p.i_buffer ≤ p.p_buffer.length)
    (heven : a52.i_size % 2 = 0)
    (hble : a52.i_blocks_per_sync_frame ≤ 6)
    (hstok : eac3_state_ok st) (hfits : eac3_fits st a52.i_size) :
    (a52.b_eac3 = true →
      ¬((a52.strmtyp = .independent ∨ a52.strmtyp = .ac3_convert) ∧
        a52.i_blocks_per_sync_frame < 6) →
      (DoWork cfg st p).ret = .success ∧
      (∃ pkt, (DoWork cfg st p).out = some pkt ∧ pkt.i_buffer = AOUT_SPDIF_SIZE * 4) ∧
      (DoWork cfg st p).st.p_out_buf = none) ∧
    (a52.b_eac3 = false →
      (DoWork cfg st p).ret = .more_data ∧ (DoWork cfg st p).out = none) := by
  have hred := eac3_reduce cfg st p a52 hparse hsize hstok hfits
  obtain ⟨st1, ob2, hw, hpout, hob2, hsc, hoff8, hoffle⟩ :=
    eac3_append_facts cfg st p a52 hsize hbuf heven hstok hfits
  rw [hw] at hred
  have hdisp : dispatch cfg st p = write_buffer_eac3 cfg st p := by
    simp [dispatch, hin]
  constructor
  · intro heac3 hnot
    have hnot6 : ¬((a52.strmtyp = .independent ∨ a52.strmtyp = .ac3_convert) ∧
        a52.i_blocks_per_sync_frame ≠ 6) := by
      intro hc
      exact hnot ⟨hc.1, by omega⟩
    rw [eac3_tail_imm cfg st1 a52 heac3 hnot6] at hred
    have hsteq : st1 = (⟨some ob2, st1.i_out_offset, st1.spec_counter⟩ :
        filter_sys_t) := by
      rw [← hpout]
    rw [hsteq] at hred
    obtain ⟨ob3, hf1, hf2, hf3, hf4, hf5⟩ :=
      write_finalize_facts cfg ob2 st1.i_out_offset st1.spec_counter IEC61937_EAC3 1
        (by decide) hoff8 (by omega)
    rw [hf1] at hred
    have hdw := DoWork_success cfg st p _ (hdisp.trans hred)
    rw [hdw]
    exact ⟨rfl, ⟨ob3, rfl, by rw [hf2, hob2]⟩, rfl⟩
  · intro heac3
    rw [eac3_tail_plain cfg st1 a52 heac3] at hred
    have hdw := DoWork_more_data cfg st p _ (hdisp.trans hred)
    rw [hdw]
    exact ⟨rfl, rfl⟩

/-- Witness for C4 (amended): a 6-block independent E-AC-3 frame emits
immediately; a plain-AC-3 frame returns need-more-data. -/
theorem claim_C4_witness :
    ((DoWork cfgEAC3s freshState blkEAC3).ret = .success ∧
      (∃ pkt, (DoWork cfgEAC3s freshState blkEAC3).out = some pkt ∧
        pkt.i_buffer = AOUT_SPDIF_SIZE * 4) ∧
      (DoWork cfgEAC3s freshState blkEAC3).st.p_out_buf = none) ∧
    ((DoWork cfgEAC3p freshState blkEAC3).ret = .more_data ∧
      (DoWork cfgEAC3p freshState blkEAC3).out = none) :=
  ⟨(claim_C4 cfgEAC3s rfl freshState blkEAC3 a52Six rfl (by decide) (by decide)
      (by decide) (by decide) trivial
      (show (2:Nat) ≤ AOUT_SPDIF_SIZE * 4 - SPDIF_HEADER_SIZE by decide)).1 rfl
      (fun hc => absurd hc.2 (by decide)),
    (claim_C4 cfgEAC3p rfl freshState blkEAC3 a52Plain rfl (by decide) (by decide)
      (by decide) (by decide) trivial
      (show (2:Nat) ≤ AOUT_SPDIF_SIZE * 4 - SPDIF_HEADER_SIZE by decide)).2 rfl⟩

/-! ### Claim C10 -/

/-- C10 (implicit invariant): once the sub-stream-0 block counter has
jumped past 6, an accumulating frame never emits a packet — when it fits
the remaining space the call returns need-more-data and the counter keeps
growing past 6 (and on overflow the call errors, still emitting nothing). -/
theorem claim_C10 (cfg : Cfg) (hin : cfg.fmt_in = .eac3) (st : filter_sys_t)
    (p : block_t) (a52 : vlc_a52_header_t)
    (hparse : cfg.a52_parse (p.p_buffer.take p.i_buffer) = some a52)
    (hsize : a52.i_size ≤ p.i_buffer) (hbuf : p.i_buffer ≤ p.p_buffer.length)
    (heven : a52.i_size % 2 = 0)
    (heac3 : a52.b_eac3 = true)
    (hstrm : a52.strmtyp = .independent ∨ a52.strmtyp = .ac3_convert)
    (hbl6 : a52.i_blocks_per_sync_frame ≠ 6)
    (hstok : eac3_state_ok st) (hc : 6 < st.spec_counter) :
    (DoWork cfg st p).out = none ∧
    (eac3_fits st a52.i_size →
      (DoWork cfg st p).ret = .more_data ∧
      st.spec_counter ≤ (DoWork cfg st p).st.spec_counter ∧
      6 < (DoWork cfg st p).st.spec_counter) := by
  have hdisp : dispatch cfg st p = write_buffer_eac3 cfg st p := by
    simp [dispatch, hin]
  by_cases hfits : eac3_fits st a52.i_size
  · have hred := eac3_reduce cfg st p a52 hparse hsize hstok hfits
    obtain ⟨st1, ob2, hw, hpout, hob2, hsc, hoff8, hoffle⟩ :=
      eac3_append_facts cfg st p a52 hsize hbuf heven hstok hfits
    rw [hw] at hred
    by_cases hsid : a52.i_substreamid = 0
    · rw [eac3_tail_accum_more_sid0 cfg st1 a52 heac3 hstrm hbl6 hsid
        (by omega)] at hred
      have hdw := DoWork_more_data cfg st p _ (hdisp.trans hred)
      rw [hdw]
      refine ⟨rfl, fun _ => ⟨rfl, ?_, ?_⟩⟩
      · show st.spec_counter ≤ st1.spec_counter + a52.i_blocks_per_sync_frame
        omega
      · show 6 < st1.spec_counter + a52.i_blocks_per_sync_frame
        omega
    · rw [eac3_tail_accum_more_nsid cfg st1 a52 heac3 hstrm hbl6 hsid
        (by omega)] at hred
      have hdw := DoWork_more_data cfg st p _ (hdisp.trans hred)
      rw [hdw]
      refine ⟨rfl, fun _ => ⟨rfl, ?_, ?_⟩⟩
      · show st.spec_counter ≤ st1.spec_counter
        omega
      · show 6 < st1.spec_counter
        omega
  · have herr : (dispatch cfg st p).2 = .error := by
      rw [hdisp]
      exact eac3_reduce_nofit cfg st p a52 hparse hsize hfits
    refine ⟨?_, fun hf => absurd hf hfits⟩
    simp [DoWork, herr]

/-- Witness for C10: a 4-block independent sub-stream-0 frame against the
counter-7 state `stEAC3c7`: nothing is emitted and the counter grows to 11. -/
theorem claim_C10_witness :
    (DoWork cfgEAC3a stEAC3c7 blkEAC3).out = none ∧
    ((DoWork cfgEAC3a stEAC3c7 blkEAC3).ret = .more_data ∧
      stEAC3c7.spec_counter ≤ (DoWork cfgEAC3a stEAC3c7 blkEAC3).st.spec_counter ∧
      6 < (DoWork cfgEAC3a stEAC3c7 blkEAC3).st.spec_counter) :=
  ⟨(claim_C10 cfgEAC3a rfl stEAC3c7 blkEAC3 a52Accum rfl (by decide) (by decide)
      (by decide) rfl (Or.inl rfl) (by decide)
      ⟨rfl, by decide, by decide⟩ (by decide)).1,
    (claim_C10 cfgEAC3a rfl stEAC3c7 blkEAC3 a52Accum rfl (by decide) (by decide)
      (by decide) rfl (Or.inl rfl) (by decide)
      ⟨rfl, by decide, by decide⟩ (by decide)).2
      (show (2:Nat) ≤ AOUT_SPDIF_SIZE * 4 - 8 by decide)⟩

/-! ### TrueHD step lemmas -/

theorem truehd_tail_ok (cfg : Cfg) (st : filter_sys_t) (ob : out_block_t)
    (p : block_t) (pad : Int)
    (hob : st.p_out_buf = some ob) (hsz : ob.i_buffer = 61440)
    (hpadnn : 0 ≤ pad)
    (hfit : (p.i_buffer : Int) + pad ≤ 61440 - (st.i_out_offset : Int))
    (hbuf : p.i_buffer ≤ p.p_buffer.length) :
    ∃ st2 ob2, truehd_tail cfg st p pad = (st2, .more_data) ∧
      st2.p_out_buf = some ob2 ∧
      st2.i_out_offset =
        st.i_out_offset + p.i_buffer + p.i_buffer % 2 + pad.toNat ∧
      st2.spec_counter = st.spec_counter + 1 ∧
      ob2.i_buffer = ob.i_buffer ∧
      (∀ j, j < st.i_out_offset → ob2.data j = ob.data j) ∧
      (p.i_buffer % 2 = 0 → ∀ j, j < p.i_buffer →
        ob2.data (st.i_out_offset + j) =
          (p.p_buffer.take p.i_buffer).getD
            (j ^^^ swapN (is_big_endian cfg p) (b_output_big_endian cfg)) 0) := by
  have hguard : ¬(pad < 0 ∨
      p.i_buffer + pad.toNat > ob.i_buffer - st.i_out_offset) := by
    omega
  obtain ⟨ob1, hb1, hb2, hb3, hb4, hb5, hb6⟩ := write_buffer_some cfg st ob hob p hbuf
  refine ⟨⟨some { ob1 with data := (writeRegion ob1.data
        (write_buffer cfg st p).i_out_offset pad.toNat (fun _ => 0)) },
      (write_buffer cfg st p).i_out_offset + pad.toNat,
      (write_buffer cfg st p).spec_counter + 1⟩,
    { ob1 with data := (writeRegion ob1.data
        (write_buffer cfg st p).i_out_offset pad.toNat (fun _ => 0)) },
    ?_, rfl, ?_, ?_, hb2, ?_, ?_⟩
  · simp only [truehd_tail, hob]
    rw [if_neg hguard]
    simp only [write_padding, hb1]
  · simp only
    omega
  · simp only
    omega
  · intro j hj
    simp only
    rw [writeRegion_lt _ _ _ _ _ (by omega)]
    exact hb5 j hj
  · intro hev j hj
    simp only
    rw [writeRegion_lt _ _ _ _ _ (by omega)]
    exact hb6 hev j hj

theorem write_code_facts (cfg : Cfg) (st : filter_sys_t) (ob : out_block_t)
    (hob : st.p_out_buf = some ob) (code : List Nat) (h2 : code.length % 2 = 0) :
    ∃ ob1, (write_data cfg st code true).p_out_buf = some ob1 ∧
      (write_data cfg st code true).i_out_offset = st.i_out_offset + code.length ∧
      (write_data cfg st code true).spec_counter = st.spec_counter ∧
      ob1.i_buffer = ob.i_buffer ∧
      (∀ j, j < st.i_out_offset → ob1.data j = ob.data j) ∧
      (∀ j, j < code.length →
        ob1.data (st.i_out_offset + j) = code.getD (j ^^^ matCodeSwap cfg) 0) := by
  rw [write_data_even cfg st ob hob code true h2]
  refine ⟨_, rfl, rfl, rfl, rfl, ?_, ?_⟩
  · intro j hj
    simp only
    exact writeRegion_lt _ _ _ _ _ hj
  · intro j hj
    simp only
    rw [writeRegion_in _ _ _ _ _ (by omega) (by omega), Nat.add_sub_cancel_left]
    rfl

theorem thd_step (cfg : Cfg) (hin : cfg.fmt_in = .mlp ∨ cfg.fmt_in = .truehd)
    (st : filter_sys_t) (p : block_t) (k : Nat) (hk : k ≤ 22)
    (hnom : truehd_nominal p) (hinv : truehd_inv cfg st k) :
    ∃ st2, DoWork cfg st p = ⟨st2, none, .more_data, true⟩ ∧
      truehd_inv cfg st2 (k + 1) := by
  obtain ⟨heven, hle, hbufl⟩ := hnom
  obtain ⟨hsc, hcase⟩ := hinv
  have hdisp : dispatch cfg st p = write_buffer_truehd cfg st p := by
    rcases hin with h | h <;> simp [dispatch, h]
  have hT : TRUEHD_FRAME_OFFSET = 2560 := rfl
  have hS : SPDIF_HEADER_SIZE = 8 := rfl
  have hl20 : p_mat_start_code.length = 20 := rfl
  have hl12 : p_mat_middle_code.length = 12 := rfl
  rcases hcase with ⟨hk0, hnone⟩ | ⟨hk1, hk23, ob, hob, hib, hoff, hstart, hmid⟩
  · subst hk0
    have hsc0 : (write_init cfg st p 61440 (61440 / 16)).spec_counter = 0 := hsc
    have hredA : write_buffer_truehd cfg st p =
        truehd_tail cfg
          (write_data cfg (write_init cfg st p 61440 (61440 / 16))
            p_mat_start_code true)
          p ((TRUEHD_FRAME_OFFSET : Int) - p.i_buffer - 20 - SPDIF_HEADER_SIZE) := by
      simp only [write_buffer_truehd, hnone, Option.isNone_none, if_true]
      rw [if_pos hsc0]
    have h8 : (write_init cfg st p 61440 (61440 / 16)).i_out_offset = 8 := rfl
    obtain ⟨obS, hc1, hc2, hc3, hc4, hc5, hc6⟩ :=
      write_code_facts cfg (write_init cfg st p 61440 (61440 / 16))
        { i_buffer := 61440, data := cfg.alloc, i_dts := p.i_dts, i_pts := p.i_pts,
          i_nb_samples := 61440 / 16, i_length := 0 }
        rfl p_mat_start_code rfl
    have hobS : obS.i_buffer = 61440 := by rw [hc4]
    obtain ⟨st2, ob2, heq, hpout2, hoff2, hsc2, hib2, hpres2, hreg2⟩ :=
      truehd_tail_ok cfg
        (write_data cfg (write_init cfg st p 61440 (61440 / 16)) p_mat_start_code true)
        obS p ((TRUEHD_FRAME_OFFSET : Int) - p.i_buffer - 20 - SPDIF_HEADER_SIZE)
        hc1 hobS (by omega) (by omega) hbufl
    refine ⟨st2, ?_, ?_⟩
    · rw [DoWork_more_data cfg st p st2 (hdisp.trans (hredA.trans heq))]
    · refine ⟨by omega, Or.inr ⟨by omega, by omega, ob2, hpout2, by omega, ?_, ?_,
        fun h => absurd h (by omega)⟩⟩
      · rw [hoff2]
        simp only [thdOff]
        rw [if_neg (by omega)]
        omega
      · intro j hj
        rw [hpres2 (8 + j) (by omega)]
        have := hc6 j (by omega)
        rw [h8] at this
        exact this
  · by_cases hk11 : k = 11
    · subst hk11
      have hoffv : st.i_out_offset = 2560 * 11 := by
        rw [hoff]; decide
      have hredB : write_buffer_truehd cfg st p =
          truehd_tail cfg st p ((TRUEHD_FRAME_OFFSET : Int) - p.i_buffer - 4) := by
        simp only [write_buffer_truehd, hob, Option.isNone_some, Bool.false_eq_true,
          if_false, hsc]
        norm_num
      obtain ⟨st2, ob2, heq, hpout2, hoff2, hsc2, hib2, hpres2, hreg2⟩ :=
        truehd_tail_ok cfg st ob p ((TRUEHD_FRAME_OFFSET : Int) - p.i_buffer - 4)
          hob hib (by omega) (by omega) hbufl
      refine ⟨st2, ?_, ?_⟩
      · rw [DoWork_more_data cfg st p st2 (hdisp.trans (hredB.trans heq))]
      · refine ⟨by omega, Or.inr ⟨by omega, by omega, ob2, hpout2, by omega, ?_, ?_,
          fun h => absurd h (by omega)⟩⟩
        · rw [hoff2, hoffv]
          have h12 : thdOff (11 + 1) = 2560 * 12 - 4 := rfl
          rw [h12]
          omega
        · intro j hj
          rw [hpres2 (8 + j) (by omega)]
          exact hstart j hj
    · by_cases hk12 : k = 12
      · subst hk12
        have hoffv : st.i_out_offset = 2560 * 12 - 4 := by
          rw [hoff]; decide
        have hredB : write_buffer_truehd cfg st p =
            truehd_tail cfg (write_data cfg st p_mat_middle_code true) p
              ((TRUEHD_FRAME_OFFSET : Int) - p.i_buffer - (12 - 4)) := by
          simp only [write_buffer_truehd, hob, Option.isNone_some, Bool.false_eq_true,
            if_false, hsc]
          norm_num
        obtain ⟨obM, hc1, hc2, hc3, hc4, hc5, hc6⟩ :=
          write_code_facts cfg st ob hob p_mat_middle_code rfl
        have hobM : obM.i_buffer = 61440 := by rw [hc4, hib]
        obtain ⟨st2, ob2, heq, hpout2, hoff2, hsc2, hib2, hpres2, hreg2⟩ :=
          truehd_tail_ok cfg (write_data cfg st p_mat_middle_code true) obM p
            ((TRUEHD_FRAME_OFFSET : Int) - p.i_buffer - (12 - 4))
            hc1 hobM (by omega) (by omega) hbufl
        refine ⟨st2, ?_, ?_⟩
        · rw [DoWork_more_data cfg st p st2 (hdisp.trans (hredB.trans heq))]
        · refine ⟨by omega, Or.inr ⟨by omega, by omega, ob2, hpout2, by omega, ?_,
            ?_, ?_⟩⟩
          · rw [hoff2]
            simp only [thdOff]
            rw [if_neg (by omega)]
            omega
          · intro j hj
            rw [hpres2 (8 + j) (by omega), hc5 (8 + j) (by omega)]
            exact hstart j hj
          · intro _ j hj
            rw [hpres2 (2560 * 12 - 4 + j) (by omega)]
            have := hc6 j (by omega)
            rw [hoffv] at this
            exact this
      · have hoffv : st.i_out_offset = 2560 * k := by
          rw [hoff]
          simp only [thdOff]
          rw [if_neg hk12]
        have hredB : write_buffer_truehd cfg st p =
            truehd_tail cfg st p ((TRUEHD_FRAME_OFFSET : Int) - p.i_buffer) := by
          simp only [write_buffer_truehd, hob, Option.isNone_some, Bool.false_eq_true,
            if_false, hsc]
          rw [if_neg (by omega), if_neg hk11, if_neg hk12, if_neg (by omega)]
        obtain ⟨st2, ob2, heq, hpout2, hoff2, hsc2, hib2, hpres2, hreg2⟩ :=
          truehd_tail_ok cfg st ob p ((TRUEHD_FRAME_OFFSET : Int) - p.i_buffer)
            hob hib (by omega) (by omega) hbufl
        refine ⟨st2, ?_, ?_⟩
        · rw [DoWork_more_data cfg st p st2 (hdisp.trans (hredB.trans heq))]
        · refine ⟨by omega, Or.inr ⟨by omega, by omega, ob2, hpout2, by omega, ?_,
            ?_, ?_⟩⟩
          · rw [hoff2, hoffv]
            simp only [thdOff]
            rw [if_neg (by omega)]
            omega
          · intro j hj
            rw [hpres2 (8 + j) (by omega)]
            exact hstart j hj
          · intro h13 j hj
            rw [hpres2 (2560 * 12 - 4 + j) (by omega)]
            exact hmid (by omega) j hj

theorem write_padding_facts (cfg : Cfg) (st : filter_sys_t) (ob : out_block_t)
    (hob : st.p_out_buf = some ob) (nPad : Nat) :
    ∃ ob2, (write_padding cfg st nPad).p_out_buf = some ob2 ∧
      (write_padding cfg st nPad).i_out_offset = st.i_out_offset + nPad ∧
      (write_padding cfg st nPad).spec_counter = st.spec_counter ∧
      ob2.i_buffer = ob.i_buffer ∧
      (∀ j, j < st.i_out_offset → ob2.data j = ob.data j) := by
  simp only [write_padding, hob]
  refine ⟨_, rfl, trivial, trivial, rfl, ?_⟩
  intro j hj
  show writeRegion ob.data st.i_out_offset nPad (fun _ => 0) j = ob.data j
  exact writeRegion_lt _ _ _ _ _ hj

theorem thd_final (cfg : Cfg) (hin : cfg.fmt_in = .mlp ∨ cfg.fmt_in = .truehd)
    (st : filter_sys_t) (p : block_t) (hnom : truehd_nominal p)
    (hinv : truehd_inv cfg st 23) :
    ∃ st2 pkt, DoWork cfg st p = ⟨st2, some pkt, .success, true⟩ ∧
      st2.p_out_buf = none ∧ st2.spec_counter = 0 ∧
      pkt.i_buffer = 61440 ∧
      markerAt cfg pkt 8 p_mat_start_code ∧
      markerAt cfg pkt (2560 * 12 - 4) p_mat_middle_code ∧
      markerAt cfg pkt (2560 * 24 - 24) p_mat_end_code := by
  obtain ⟨heven, hle, hbufl⟩ := hnom
  obtain ⟨hsc, hcase⟩ := hinv
  have hdisp : dispatch cfg st p = write_buffer_truehd cfg st p := by
    rcases hin with h | h <;> simp [dispatch, h]
  have hT : TRUEHD_FRAME_OFFSET = 2560 := rfl
  have hS : SPDIF_HEADER_SIZE = 8 := rfl
  have hl20 : p_mat_start_code.length = 20 := rfl
  have hl12 : p_mat_middle_code.length = 12 := rfl
  have hl16 : p_mat_end_code.length = 16 := rfl
  rcases hcase with ⟨h0, _⟩ | ⟨hk1, hk23, ob, hob, hib, hoff, hstart, hmid⟩
  · exact absurd h0 (by decide)
  · have hmid' := hmid (by decide)
    have hoffv : st.i_out_offset = 2560 * 23 := by rw [hoff]; decide
    have hcond : ¬((TRUEHD_FRAME_OFFSET : Int) - (p.i_buffer : Int) - 24 < 0 ∨
        p.i_buffer + ((TRUEHD_FRAME_OFFSET : Int) - (p.i_buffer : Int) - 24).toNat >
          ob.i_buffer - st.i_out_offset) := by omega
    have hred : write_buffer_truehd cfg st p =
        ({ write_finalize cfg
            (write_data cfg
              (write_padding cfg (write_buffer cfg st p)
                ((TRUEHD_FRAME_OFFSET : Int) - (p.i_buffer : Int) - 24).toNat)
              p_mat_end_code true)
            IEC61937_TRUEHD 1 with spec_counter := 0 }, .success) := by
      simp only [write_buffer_truehd, hob, Option.isNone_some, Bool.false_eq_true,
        if_false, hsc]
      rw [if_neg (show ¬(23 = 0) by decide), if_neg (show ¬(23 = 11) by decide),
        if_neg (show ¬(23 = 12) by decide), if_pos trivial, if_neg hcond]
    obtain ⟨obB, hB1, hB2, hB3, hB4, hB5, hB6⟩ := write_buffer_some cfg st ob hob p hbufl
    obtain ⟨obP, hP1, hP2, hP3, hP4, hP5⟩ :=
      write_padding_facts cfg (write_buffer cfg st p) obB hB1
        ((TRUEHD_FRAME_OFFSET : Int) - (p.i_buffer : Int) - 24).toNat
    obtain ⟨obE, hE1, hE2, hE3, hE4, hE5, hE6⟩ :=
      write_code_facts cfg
        (write_padding cfg (write_buffer cfg st p)
          ((TRUEHD_FRAME_OFFSET : Int) - (p.i_buffer : Int) - 24).toNat)
        obP hP1 p_mat_end_code rfl
    have hoB : (write_buffer cfg st p).i_out_offset = 2560 * 23 + p.i_buffer := by
      rw [hB3, hoffv]; omega
    have hoP : (write_padding cfg (write_buffer cfg st p)
        ((TRUEHD_FRAME_OFFSET : Int) - (p.i_buffer : Int) - 24).toNat).i_out_offset =
        2560 * 24 - 24 := by
      rw [hP2, hoB]; omega
    have hoE : (write_data cfg
        (write_padding cfg (write_buffer cfg st p)
          ((TRUEHD_FRAME_OFFSET : Int) - (p.i_buffer : Int) - 24).toNat)
        p_mat_end_code true).i_out_offset = 61432 := by
      rw [hE2, hoP]
      omega
    have hibE : obE.i_buffer = 61440 := by rw [hE4, hP4, hB2, hib]
    have heta : (write_data cfg
        (write_padding cfg (write_buffer cfg st p)
          ((TRUEHD_FRAME_OFFSET : Int) - (p.i_buffer : Int) - 24).toNat)
        p_mat_end_code true) =
        ⟨some obE,
          (write_data cfg
            (write_padding cfg (write_buffer cfg st p)
              ((TRUEHD_FRAME_OFFSET : Int) - (p.i_buffer : Int) - 24).toNat)
            p_mat_end_code true).i_out_offset,
          (write_data cfg
            (write_padding cfg (write_buffer cfg st p)
              ((TRUEHD_FRAME_OFFSET : Int) - (p.i_buffer : Int) - 24).toNat)
            p_mat_end_code true).spec_counter⟩ := by
      rw [← hE1]
    obtain ⟨ob3, hF0, hF1, hF2, hF3, hF4⟩ :=
      write_finalize_facts cfg obE
        (write_data cfg
          (write_padding cfg (write_buffer cfg st p)
            ((TRUEHD_FRAME_OFFSET : Int) - (p.i_buffer : Int) - 24).toNat)
          p_mat_end_code true).i_out_offset
        (write_data cfg
          (write_padding cfg (write_buffer cfg st p)
            ((TRUEHD_FRAME_OFFSET : Int) - (p.i_buffer : Int) - 24).toNat)
          p_mat_end_code true).spec_counter
        IEC61937_TRUEHD 1 (by decide) (by omega) (by omega)
    rw [← heta, hibE] at hF0
    rw [hF0] at hred
    have hdisp2 := hdisp.trans hred
    have hdw := DoWork_success cfg st p _ hdisp2
    refine ⟨_, ob3, hdw, rfl, rfl, ?_, ?_, ?_, ?_⟩
    · rw [hF1]; exact hibE
    · intro j hj
      rw [hF3 (8 + j) (by omega) (by omega), hE5 (8 + j) (by omega),
        hP5 (8 + j) (by omega), hB5 (8 + j) (by omega)]
      exact hstart j hj
    · intro j hj
      rw [hF3 (2560 * 12 - 4 + j) (by omega) (by omega), hE5 (2560 * 12 - 4 + j) (by omega),
        hP5 (2560 * 12 - 4 + j) (by omega), hB5 (2560 * 12 - 4 + j) (by omega)]
      exact hmid' j hj
    · intro j hj
      rw [hF3 (2560 * 24 - 24 + j) (by omega) (by omega)]
      have h6 := hE6 j (by omega)
      rw [hoP] at h6
      exact h6

theorem runFrames_append (cfg : Cfg) (xs ys : List block_t) : ∀ st : filter_sys_t,
    runFrames cfg st (xs ++ ys) =
      ((runFrames cfg (runFrames cfg st xs).1 ys).1,
        (runFrames cfg st xs).2 ++ (runFrames cfg (runFrames cfg st xs).1 ys).2) := by
  induction xs with
  | nil => intro st; rfl
  | cons f rest ih =>
      intro st
      simp only [List.cons_append, runFrames, List.append_eq, ih, List.append_assoc]

theorem thd_run_mid (cfg : Cfg) (hin : cfg.fmt_in = .mlp ∨ cfg.fmt_in = .truehd)
    (frames : List block_t) :
    ∀ k st, (∀ b ∈ frames, truehd_nominal b) → k + frames.length ≤ 23 →
      truehd_inv cfg st k →
      ∃ st', runFrames cfg st frames =
          (st', List.replicate frames.length
            (SpdifRet.more_data, (none : Option out_block_t))) ∧
        truehd_inv cfg st' (k + frames.length) := by
  induction frames with
  | nil =>
      intro k st _ _ hinv
      exact ⟨st, rfl, by simpa using hinv⟩
  | cons f rest ih =>
      intro k st hnom hk hinv
      have hk22 : k ≤ 22 := by
        simp only [List.length_cons] at hk
        omega
      obtain ⟨st2, hdw, hinv2⟩ :=
        thd_step cfg hin st f k hk22 (hnom f (by simp)) hinv
      obtain ⟨st', hrun, hinv'⟩ :=
        ih (k + 1) st2 (fun b hb => hnom b (by simp [hb]))
          (by simp only [List.length_cons] at hk; omega) hinv2
      refine ⟨st', ?_, ?_⟩
      · simp only [runFrames, hdw, hrun, List.length_cons, List.replicate_succ]
      · have heq : k + 1 + rest.length = k + (f :: rest).length := by
          rw [List.length_cons]; omega
        exact heq ▸ hinv'

/-! ### Claim C2 -/

/-- C2: in the TrueHD/MLP strategy, feeding a fresh session any 24 input
frames of nominal size makes the calls at frame indices 0 through 22 each
return need-more-input with no packet, while the call at frame index 23
returns success with one complete packet of exactly 61440 bytes, leaves no
packet in progress and resets the frame counter to 0. -/
theorem claim_C2 (cfg : Cfg) (hin : cfg.fmt_in = .mlp ∨ cfg.fmt_in = .truehd)
    (fs : List block_t) (g : block_t) (hlen : fs.length = 23)
    (hnomf : ∀ b ∈ fs, truehd_nominal b) (hnomg : truehd_nominal g) :
    ∃ st' pkt, runFrames cfg freshState (fs ++ [g]) =
        (st', List.replicate 23 (SpdifRet.more_data, (none : Option out_block_t)) ++
          [(SpdifRet.success, some pkt)]) ∧
      pkt.i_buffer = 61440 ∧ st'.p_out_buf = none ∧ st'.spec_counter = 0 := by
  have hinv0 : truehd_inv cfg freshState 0 := ⟨rfl, Or.inl ⟨rfl, rfl⟩⟩
  obtain ⟨st1, hrun1, hinv1⟩ :=
    thd_run_mid cfg hin fs 0 freshState hnomf (by omega) hinv0
  rw [hlen] at hrun1
  have hinv1' : truehd_inv cfg st1 23 := by
    rw [hlen, Nat.zero_add] at hinv1
    exact hinv1
  obtain ⟨st2, pkt, hdw, hnone2, hsc2, hib, hm1, hm2, hm3⟩ :=
    thd_final cfg hin st1 g hnomg hinv1'
  refine ⟨st2, pkt, ?_, hib, hnone2, hsc2⟩
  rw [runFrames_append cfg fs [g] freshState]
  simp only [hrun1, runFrames, hdw]

theorem blkTHD_nominal : truehd_nominal blkTHD := ⟨rfl, by decide, by decide⟩

theorem claim_C2_witness :
    (cfgTHD.fmt_in = .mlp ∨ cfgTHD.fmt_in = .truehd) ∧
    (List.replicate 23 blkTHD).length = 23 ∧
    truehd_nominal blkTHD ∧
    ∃ st' pkt, runFrames cfgTHD freshState (List.replicate 23 blkTHD ++ [blkTHD]) =
        (st', List.replicate 23 (SpdifRet.more_data, (none : Option out_block_t)) ++
          [(SpdifRet.success, some pkt)]) ∧
      pkt.i_buffer = 61440 ∧ st'.p_out_buf = none ∧ st'.spec_counter = 0 :=
  ⟨Or.inr rfl, rfl, blkTHD_nominal,
    claim_C2 cfgTHD (Or.inr rfl) (List.replicate 23 blkTHD) blkTHD rfl
      (fun b hb => by rw [List.eq_of_mem_replicate hb]; exact blkTHD_nominal)
      blkTHD_nominal⟩

/-! ### Claim C1 -/

set_option maxRecDepth 100000 in
/-- C1 (counterexample): in the concrete super-frame `thdPkt` built from 24
nominal TrueHD frames, the start code does **not** begin at byte offset 0
(bytes 0-7 hold the S/PDIF burst header; byte 0 is 0xF8, not the code's
0x07) — it begins at offset 8; and the middle and end codes do **not** end
at offsets 2560×12−4 and 2560×24−24 (the bytes that would hold them there
are padding zeros) — they **begin** there. -/
theorem claim_C1_counterexample :
    thdPkt.i_buffer = 61440 ∧
    ¬ markerAt cfgTHD thdPkt 0 p_mat_start_code ∧
    thdPkt.data 0 = 0xF8 ∧
    markerAt cfgTHD thdPkt 8 p_mat_start_code ∧
    thdPkt.data (2560 * 12 - 4 - 12) = 0 ∧
    thdPkt.data (2560 * 12 - 4 - 11) = 0 ∧
    markerAt cfgTHD thdPkt (2560 * 12 - 4) p_mat_middle_code ∧
    thdPkt.data (2560 * 24 - 24 - 16) = 0 ∧
    thdPkt.data (2560 * 24 - 24 - 15) = 0 ∧
    markerAt cfgTHD thdPkt (2560 * 24 - 24) p_mat_end_code := by
  simp only [markerAt]
  decide

/-- C1 (amended): in the TrueHD/MLP strategy, for every MAT super-frame
built from 24 TrueHD frames of nominal size, the completed 61440-byte
output packet contains the 20-byte MAT start code beginning at byte
offset 8 (right after the 8-byte S/PDIF burst header), the 12-byte MAT
middle code beginning at byte offset 2560×12−4, and the 16-byte MAT end
code beginning at byte offset 2560×24−24, each code byte-order-adjusted
for the selected output format. -/
theorem claim_C1 (cfg : Cfg) (hin : cfg.fmt_in = .mlp ∨ cfg.fmt_in = .truehd)
    (fs : List block_t) (g : block_t) (hlen : fs.length = 23)
    (hnomf : ∀ b ∈ fs, truehd_nominal b) (hnomg : truehd_nominal g) :
    ∃ st' pkt, runFrames cfg freshState (fs ++ [g]) =
        (st', List.replicate 23 (SpdifRet.more_data, (none : Option out_block_t)) ++
          [(SpdifRet.success, some pkt)]) ∧
      pkt.i_buffer = 61440 ∧
      markerAt cfg pkt 8 p_mat_start_code ∧
      markerAt cfg pkt (2560 * 12 - 4) p_mat_middle_code ∧
      markerAt cfg pkt (2560 * 24 - 24) p_mat_end_code := by
  have hinv0 : truehd_inv cfg freshState 0 := ⟨rfl, Or.inl ⟨rfl, rfl⟩⟩
  obtain ⟨st1, hrun1, hinv1⟩ :=
    thd_run_mid cfg hin fs 0 freshState hnomf (by omega) hinv0
  rw [hlen] at hrun1
  have hinv1' : truehd_inv cfg st1 23 := by
    rw [hlen, Nat.zero_add] at hinv1
    exact hinv1
  obtain ⟨st2, pkt, hdw, hnone2, hsc2, hib, hm1, hm2, hm3⟩ :=
    thd_final cfg hin st1 g hnomg hinv1'
  refine ⟨st2, pkt, ?_, hib, hm1, hm2, hm3⟩
  rw [runFrames_append cfg fs [g] freshState]
  simp only [hrun1, runFrames, hdw]

theorem claim_C1_witness :
    (cfgTHD.fmt_in = .mlp ∨ cfgTHD.fmt_in = .truehd) ∧
    (List.replicate 23 blkTHD).length = 23 ∧
    truehd_nominal blkTHD ∧
    ∃ st' pkt, runFrames cfgTHD freshState (List.replicate 23 blkTHD ++ [blkTHD]) =
        (st', List.replicate 23 (SpdifRet.more_data, (none : Option out_block_t)) ++
          [(SpdifRet.success, some pkt)]) ∧
      pkt.i_buffer = 61440 ∧
      markerAt cfgTHD pkt 8 p_mat_start_code ∧
      markerAt cfgTHD pkt (2560 * 12 - 4) p_mat_middle_code ∧
      markerAt cfgTHD pkt (2560 * 24 - 24) p_mat_end_code :=
  ⟨Or.inr rfl, rfl, blkTHD_nominal,
    claim_C1 cfgTHD (Or.inr rfl) (List.replicate 23 blkTHD) blkTHD rfl
      (fun b hb => by rw [List.eq_of_mem_replicate hb]; exact blkTHD_nominal)
      blkTHD_nominal⟩
